import Mathlib

/-!
Solace connector (internal/impl/solace): a shallow embedding.

The Go package is embedded as pure Lean functions.  Calls into the broker SDK
and the host are recorded in an explicit list of `Call`s, so that "which calls
are made, and in which order" is a statement about a value.  What the SDK
answers is read from the fields of the receiver / service records.
-/

namespace solace

/-! ## Basic data -/

/-- A Go `error` value, identified with its message. -/
abbrev Error := String

/-- A Go `[]byte`. -/
abbrev Bytes := List UInt8

/-- The bytes of a Go string, as produced by the conversion `[]byte(s)`. -/
def stringBytes (s : String) : Bytes :=
  s.data.flatMap String.utf8EncodeChar

/-- A dynamically typed Go value (`interface{}`), as far as this package
stores one: a configuration leaf, a property value, a metadata value. -/
inductive Value where
  | str (s : String)
  | int (i : Int)
  | bool (b : Bool)
  | bytes (b : Bytes)
  deriving DecidableEq, Repr

/-- Nanoseconds in `time.Second` (a `time.Duration` counts nanoseconds). -/
def Second : Nat := 1000000000

/-- Constant `obfuscated` of config.go. -/
def obfuscated : String := "*********"

/-- Constant `metaPrefix` of config.go. -/
def metaPrefix : String := "solace_"

/-- Constant `endpointObject` of config.go. -/
def endpointObject : String := "endpoint"

/-- Constant `queueNameField` of config.go. -/
def queueNameField : String := "queue_name"

/-- An inbound broker message (`message.InboundMessage`), by what its getters
answer.  A getter of shape `(value, ok)` is an `Option`: `none` is `ok = false`. -/
structure InboundMessage where
  payloadAsBytes : Option Bytes
  payloadAsString : Option String
  destinationName : String
  applicationMessageID : Option String
  applicationMessageType : Option String
  correlationID : Option String
  httpContentEncoding : Option String
  httpContentType : Option String
  senderID : Option String
  /-- `GetReplicationGroupMessageID`, already rendered by its `String()`. -/
  replicationGroupMessageID : Option String
  priority : Option Int
  /-- `GetProperties`: the entries of the property map, in iteration order. -/
  properties : List (String × Value)
  deriving DecidableEq, Repr

/-- Struct `receivedMessage` of input.go. -/
structure receivedMessage where
  message : Option InboundMessage
  err : Option Error
  deriving DecidableEq, Repr

/-- An SDK `resource.Topic`, by its name. -/
structure Topic where
  name : String
  deriving DecidableEq, Repr

/-- SDK function `resource.TopicOf(expression)`. -/
def TopicOf (expression : String) : Topic := ⟨expression⟩

/-- An SDK `message.OutboundMessage`, by its payload. -/
structure OutboundMessage where
  payload : Bytes
  deriving DecidableEq, Repr

/-- A call that leaves the package: into the SDK, the logger, or the Go
runtime (`go`, `make`). -/
inductive Call where
  | IsRunning
  | ReceiveMessage (timeout : Int)
  | Ack (msg : InboundMessage)
  | Terminate (gracePeriod : Nat)
  | Start
  | BuildService
  | ServiceConnect
  | ServiceDisconnect
  | BuildReceiver (queue : String)
  | makeChan (capacity : Nat)
  | go_getMessage
  | Log (level : String) (line : String)
  | BuildPublisher (backPressureWait : Nat)
  | MessageBuilder
  | BuildWithByteArrayPayload (payload : Bytes)
  | Publish (message : OutboundMessage) (destination : Topic)
  deriving DecidableEq, Repr

/-- A `solace.PersistentMessageReceiver`, by what its methods answer.
`ReceiveMessage` is `none` while the call blocks. -/
structure PersistentMessageReceiver where
  IsRunning : Bool
  ReceiveMessage : Option (Except Error InboundMessage)
  Ack : InboundMessage → Option Error
  Terminate : Nat → Option Error
  Start : Option Error

/-- A `solace.PersistentMessagePublisher`, by what its methods answer;
`Publish message destination` is `Publish(message, destination, nil, nil)`. -/
structure PersistentMessagePublisher where
  Start : Option Error
  Publish : OutboundMessage → Topic → Option Error

/-- A `solace.MessagingService`, by what its methods answer. -/
structure MessagingService where
  Connect : Option Error
  Disconnect : Option Error
  /-- `CreatePersistentMessageReceiverBuilder().WithMessageClientAcknowledgement().Build(queue)`. -/
  BuildReceiver : String → Except Error PersistentMessageReceiver
  /-- `CreatePersistentMessagePublisherBuilder().OnBackPressureWait(n).Build()`. -/
  BuildPublisher : Nat → Except Error PersistentMessagePublisher
  /-- `MessageBuilder().BuildWithByteArrayPayload(data)`. -/
  BuildWithByteArrayPayload : Bytes → Except Error OutboundMessage

/-- A `config.ServicePropertyMap`: a Go map from property identifier to value,
kept as its list of entries (no key twice). -/
abbrev ServicePropertyMap := List (String × Value)

/-- Map read `m[k]`. -/
def ServicePropertyMap.get : ServicePropertyMap → String → Option Value
  | [], _ => none
  | e :: es, k => if e.1 = k then some e.2 else ServicePropertyMap.get es k

/-- Map write `m[k] = v`. -/
def ServicePropertyMap.set : ServicePropertyMap → String → Value → ServicePropertyMap
  | [], k, v => [(k, v)]
  | e :: es, k, v => if e.1 = k then (k, v) :: es else e :: ServicePropertyMap.set es k v

/-- Struct `Client` of client.go (the logger is the `Call.Log` entries). -/
structure Client where
  messagingService : Option MessagingService
  properties : ServicePropertyMap

/-- Modelled from the spec: the host's `service.Message`, which is not in the
sources, "one per received message": payload bytes and the metadata entries. -/
structure Message where
  raw : Bytes
  meta : List (String × Value)
  deriving DecidableEq, Repr

/-- Modelled from the spec: the host's `service.InterpolatedString`, which is
not in the sources, "a per-message topic template": what its method
`String(msg)` evaluates to for each message. -/
structure InterpolatedString where
  String : Message → String

/-- Struct `endpointConfig` of config.go: the queue name of an input, the
topic template of an output (a pointer, nil when not set). -/
structure endpointConfig where
  queueName : String
  topicName : Option InterpolatedString

/-- Struct `solaceInput` of input.go.  The mutex `m` guards `Connect` against
itself and has no counterpart in a sequential model. -/
structure solaceInput where
  client : Client
  persistentReceiver : Option PersistentMessageReceiver
  endpointConfig : endpointConfig

/-- A `context.Context`, by what `Err()` answers: `none` until cancelled.
`Done()` is closed exactly when `Err()` is not nil. -/
structure Context where
  err : Option Error
  deriving DecidableEq, Repr

/-! ## The outgoing envelope -/

/-- Modelled from the spec: the host's `service.NewMessage(data)`, an envelope
with the payload `data` and no metadata. -/
def NewMessage (data : Bytes) : Message := ⟨data, []⟩

/-- Modelled from the spec: the host's `part.MetaSetMut(key, value)`, which sets
the metadata key, replacing an earlier value. -/
def Message.MetaSetMut (part : Message) (key : String) (value : Value) : Message :=
  { part with meta := part.meta.filter (fun e => e.1 != key) ++ [(key, value)] }

/-- The metadata keys of an envelope. -/
def Message.metaKeys (part : Message) : List String := part.meta.map Prod.fst

/-- Function `setStringHeader` of input.go. -/
def setStringHeader (part : Message) (headerName : String)
    (headerFunc : Option String) : Message :=
  match headerFunc with
  | some value => part.MetaSetMut (metaPrefix ++ headerName) (.str value)
  | none => part

/-- The payload decode of `ReadBatch` (input.go lines 145-149): the byte form
when extractable, else the bytes of the string form; `none` is `part == nil`. -/
def payloadPart (msg : InboundMessage) : Option Message :=
  match msg.payloadAsBytes with
  | some data => some (NewMessage data)
  | none =>
    match msg.payloadAsString with
    | some data => some (NewMessage (stringBytes data))
    | none => none

/-- The metadata block of `ReadBatch` (input.go lines 155-174). -/
def setMetadata (part : Message) (msg : InboundMessage) : Message :=
  let part := part.MetaSetMut (metaPrefix ++ "destination_name") (.str msg.destinationName)
  let part := setStringHeader part "message_id" msg.applicationMessageID
  let part := setStringHeader part "message_type" msg.applicationMessageType
  let part := setStringHeader part "correlation_id" msg.correlationID
  let part := setStringHeader part "content_encoding" msg.httpContentEncoding
  let part := setStringHeader part "content_type" msg.httpContentType
  let part := setStringHeader part "sender_id" msg.senderID
  let part :=
    match msg.replicationGroupMessageID with
    | some rgmi => part.MetaSetMut (metaPrefix ++ "rgmi") (.str rgmi)
    | none => part
  let part :=
    match msg.priority with
    | some prio => part.MetaSetMut (metaPrefix ++ "priority") (.int prio)
    | none => part
  msg.properties.foldl
    (fun part kv => part.MetaSetMut (metaPrefix ++ "prop_" ++ kv.1) kv.2) part

/-! ## The receive bridge: `getMessage`, the channel and the `select` -/

/-- A Go channel of `receivedMessage`: capacity, buffered values, closed flag. -/
structure Chan where
  capacity : Nat
  buf : List receivedMessage
  closed : Bool
  deriving DecidableEq, Repr

/-- Builtin `make(chan receivedMessage, capacity)`; `make(chan receivedMessage)`
is capacity 0. -/
def makeChan (capacity : Nat) : Chan := ⟨capacity, [], false⟩

/-- Where the goroutine running `getMessage` stands: not yet run, inside
`reader.ReceiveMessage(-1)`, at `msgChan <- ...`, at `close(msgChan)`, returned. -/
inductive Worker where
  | spawned
  | inReceive
  | atSend (rmsg : receivedMessage)
  | atClose
  | exited
  deriving DecidableEq, Repr

/-- Where `ReadBatch` stands with respect to its `select`: waiting in it, out
through `case rmsg = <-msgChan`, or out through `case <-ctx.Done()` with the
value of `ctx.Err()`. -/
inductive Caller where
  | atSelect
  | received (rmsg : receivedMessage)
  | cancelled (e : Error)
  deriving DecidableEq, Repr

/-- The state shared by one `ReadBatch` call and the worker it spawned. -/
structure Bridge where
  msgChan : Chan
  worker : Worker
  caller : Caller
  ctx : Context
  reader : PersistentMessageReceiver
  calls : List Call

/-- One atomic step of the worker, of the caller's `select`, or of whoever
cancels the context.  The order of steps is the scheduler's choice. -/
inductive Step where
  | workerCall
  | workerReturn
  | workerSend
  | workerClose
  | selectRecv
  | selectDone
  | ctxCancel (e : Error)
  deriving DecidableEq, Repr

/-- The `receivedMessage` that `getMessage` builds from what `ReceiveMessage`
returned. -/
def toReceived : Except Error InboundMessage → receivedMessage
  | .ok msg => ⟨some msg, none⟩
  | .error e => ⟨none, some e⟩

/-- One step of the bridge; `none` when the step cannot proceed (it blocks).

* `workerCall`, `workerReturn`: `msg, err := reader.ReceiveMessage(-1)`;
* `workerSend`: `msgChan <- receivedMessage{...}` into free buffer space;
* `selectRecv`: `case rmsg = <-msgChan`, from the buffer, from a sender
  waiting at its send (the only way a send on a full or unbuffered channel
  completes), or the zero value from a closed channel;
* `workerClose`: `close(msgChan)`;
* `selectDone`: `case <-ctx.Done()`, possible once the context is cancelled. -/
def Bridge.step (s : Bridge) : Step → Option Bridge
  | .workerCall =>
    match s.worker with
    | .spawned =>
      some { s with worker := .inReceive, calls := s.calls ++ [.ReceiveMessage (-1)] }
    | _ => none
  | .workerReturn =>
    match s.worker, s.reader.ReceiveMessage with
    | .inReceive, some res => some { s with worker := .atSend (toReceived res) }
    | _, _ => none
  | .workerSend =>
    match s.worker with
    | .atSend rmsg =>
      if s.msgChan.buf.length < s.msgChan.capacity then
        some { s with msgChan := { s.msgChan with buf := s.msgChan.buf ++ [rmsg] },
                      worker := .atClose }
      else none
    | _ => none
  | .workerClose =>
    match s.worker with
    | .atClose => some { s with msgChan := { s.msgChan with closed := true }, worker := .exited }
    | _ => none
  | .selectRecv =>
    match s.caller with
    | .atSelect =>
      match s.msgChan.buf with
      | rmsg :: rest =>
        some { s with msgChan := { s.msgChan with buf := rest }, caller := .received rmsg }
      | [] =>
        match s.worker with
        | .atSend rmsg => some { s with worker := .atClose, caller := .received rmsg }
        | _ =>
          if s.msgChan.closed then some { s with caller := .received ⟨none, none⟩ }
          else none
    | _ => none
  | .selectDone =>
    match s.caller, s.ctx.err with
    | .atSelect, some e => some { s with caller := .cancelled e }
    | _, _ => none
  | .ctxCancel e =>
    match s.ctx.err with
    | none => some { s with ctx := ⟨some e⟩ }
    | some _ => none

/-- Runs a schedule; a step that cannot proceed at its turn is skipped. -/
def Bridge.exec (s : Bridge) : List Step → Bridge
  | [] => s
  | t :: ts =>
    match s.step t with
    | some s' => s'.exec ts
    | none => s.exec ts

/-- The bridge right after `msgChan := make(chan receivedMessage)` and
`go getMessage(msgChan, a.persistentReceiver)` (input.go lines 131-132): an
unbuffered channel, a worker that has not run yet, the caller entering its
`select`. -/
def Bridge.start (ctx : Context) (reader : PersistentMessageReceiver) : Bridge where
  msgChan := makeChan 0
  worker := .spawned
  caller := .atSelect
  ctx := ctx
  reader := reader
  calls := [.IsRunning, .makeChan 0, .go_getMessage]

/-! ## `ReadBatch` -/

/-- A `service.AckFunc` returned by `ReadBatch`.  The closure holds the pointer
`a`, so it is given the adapter as it is when the callback runs, then `ctx`
and `err`.  `none` is the panic of a method call on a nil receiver. -/
abbrev AckFunc := solaceInput → Context → Option Error → Option (Option Error × List Call)

/-- The closure `func(ctx, err) error { return a.persistentReceiver.Ack(msg) }`
of input.go lines 176-178. -/
def ackFunc (msg : InboundMessage) : AckFunc := fun a _ctx _err =>
  match a.persistentReceiver with
  | some reader => some (reader.Ack msg, [.Ack msg])
  | none => none

/-- How a `ReadBatch` call ends: it returns its three results, it is still
waiting in the `select` when the schedule ends, or it panics on a nil message. -/
inductive ReadOutcome where
  | returned (batch : Option (List Message)) (ack : Option AckFunc) (err : Option Error)
  | blocked
  | nilPanic

/-- What one `ReadBatch` call did: its outcome, the calls made (by it and by
its worker) in order, and the bridge it created (`none`: no channel was made
and no worker spawned). -/
structure ReadBatchResult where
  outcome : ReadOutcome
  calls : List Call
  bridge : Option Bridge

/-- The part of `ReadBatch` after the `select` delivered `rmsg`
(input.go lines 136-139 and 145-178). -/
def afterReceive (rmsg : receivedMessage) : ReadOutcome :=
  match rmsg.err with
  | some e => .returned none none (some e)
  | none =>
    match rmsg.message with
    | none => .nilPanic
    | some msg =>
      match payloadPart msg with
      | none => .returned none none (some "could not extract content from message")
      | some part => .returned (some [setMetadata part msg]) (some (ackFunc msg)) none

/-- What `ReadBatch` returns once its `select` is left, read off the bridge
(input.go lines 134-178); `blocked` while the caller is still in the `select`. -/
def afterSelect (s : Bridge) : ReadBatchResult :=
  match s.caller with
  | .atSelect => ⟨.blocked, s.calls, some s⟩
  | .received rmsg => ⟨afterReceive rmsg, s.calls, some s⟩
  | .cancelled e =>
    ⟨.returned none none (some e),
     s.calls ++ [.Log "debug"
       ("received cancellation of ReadBatch due to error \"" ++ e ++ "\"")],
     some s⟩

/-- Method `solaceInput.ReadBatch` of input.go, under the schedule `sched` of
the steps of its worker and its `select`. -/
def ReadBatch (a : solaceInput) (ctx : Context) (sched : List Step) : ReadBatchResult :=
  match a.persistentReceiver with
  | none => ⟨.returned none none (some "persistent receiver is nil"), [], none⟩
  | some reader =>
    if !reader.IsRunning then
      ⟨.returned none none (some "persistent receiver is not running"), [.IsRunning], none⟩
    else
      afterSelect ((Bridge.start ctx reader).exec sched)

/-! ## Session: `Client.Connect`, `Client.Disconnect` -/

/-- The SDK call `messaging.NewMessagingServiceBuilder().
FromConfigurationProvider(properties).Build()`, by what it answers. -/
abbrev ServiceBuilder := ServicePropertyMap → Except Error MessagingService

/-- Method `Client.getMessagingService` of client.go. -/
def Client.getMessagingService (c : Client) : Option MessagingService :=
  c.messagingService

/-- Method `Client.Connect` of client.go: the error returned, the client
afterwards and the calls made.  The field `messagingService` is assigned from
`Build()` also when it fails (nil then). -/
def Client.Connect (c : Client) (build : ServiceBuilder) : Option Error × Client × List Call :=
  match build c.properties with
  | .error e =>
    (some e, { c with messagingService := none },
      [.Log "debug" "Creating solace messaging service", .BuildService])
  | .ok ms =>
    match ms.Connect with
    | some e =>
      (some e, { c with messagingService := some ms },
        [.Log "debug" "Creating solace messaging service", .BuildService,
         .Log "debug" "Trying to connect to solace broker", .ServiceConnect])
    | none =>
      (none, { c with messagingService := some ms },
        [.Log "debug" "Creating solace messaging service", .BuildService,
         .Log "debug" "Trying to connect to solace broker", .ServiceConnect])

/-- Method `Client.Disconnect` of client.go. -/
def Client.Disconnect (c : Client) : Option Error × List Call :=
  match c.messagingService with
  | some ms => (ms.Disconnect, [.Log "info" "disconnecting from solace broker", .ServiceDisconnect])
  | none => (some "messaging service is nil", [.Log "info" "disconnecting from solace broker"])

/-! ## Input adapter: `Connect`, `Close` -/

/-- What one `Connect` call did. -/
structure ConnectResult where
  err : Option Error
  input : solaceInput
  calls : List Call

/-- Method `solaceInput.Connect` of input.go.  `none` is the panic of calling
a method on a nil messaging service. -/
def solaceInput.Connect (i : solaceInput) (build : ServiceBuilder) : Option ConnectResult :=
  match i.client.Connect build with
  | (some err, client, calls) => some ⟨some err, { i with client := client }, calls⟩
  | (none, client, calls) =>
    let i := { i with client := client }
    let calls := calls ++ [.Log "debug" "Creating persistent message receiver",
                           .BuildReceiver i.endpointConfig.queueName]
    match i.client.getMessagingService with
    | none => none
    | some ms =>
      match ms.BuildReceiver i.endpointConfig.queueName with
      | .error err => some ⟨some err, i, calls⟩
      | .ok persistentReceiver =>
        let i := { i with persistentReceiver := some persistentReceiver }
        let calls := calls ++ [.Log "debug" "Starting persistent message receiver", .Start]
        match persistentReceiver.Start with
        | some err => some ⟨some err, i, calls⟩
        | none => some ⟨none, i, calls⟩

/-- Method `solaceInput.Close` of input.go: the error returned and the calls
made.  The value `Terminate` returns is dropped by the source. -/
def solaceInput.Close (i : solaceInput) : Option Error × List Call :=
  let calls : List Call :=
    match i.persistentReceiver with
    | none => []
    | some persistentReceiver =>
      if persistentReceiver.IsRunning then
        [.IsRunning, .Log "info" "Shutting down persistent message receiver",
         .Terminate (30 * Second)]
      else [.IsRunning]
  ((i.client.Disconnect).1, calls ++ (i.client.Disconnect).2)

/-! ## Output adapter: `Connect`, `Close`, `Write` -/

/-- Modelled from the spec: the host's `msg.AsBytes()`, which is not in the
sources: "the outgoing payload bytes" of the envelope. -/
def Message.AsBytes (msg : Message) : Except Error Bytes := .ok msg.raw

/-- Struct `solaceOutput` of output.go.  `client` is a pointer that `Close`
tests for nil; the mutex `m` has no counterpart in a sequential model. -/
structure solaceOutput where
  client : Option Client
  persistentPublisher : Option PersistentMessagePublisher
  endpointConfig : endpointConfig
  max_in_flight : Int

/-- What one `Connect` call of an output did. -/
structure OutputConnectResult where
  err : Option Error
  output : solaceOutput
  calls : List Call

/-- Method `solaceOutput.Connect` of output.go.  `uint(o.max_in_flight)` is the
value modulo 2^64.  The field `persistentPublisher` is assigned from `Build()`
also when it fails (nil then).  `none` is the panic of a nil dereference. -/
def solaceOutput.Connect (o : solaceOutput) (build : ServiceBuilder) :
    Option OutputConnectResult :=
  match o.client with
  | none => none
  | some client =>
    match client.Connect build with
    | (some err, client, calls) => some ⟨some err, { o with client := some client }, calls⟩
    | (none, client, calls) =>
      let o := { o with client := some client }
      let backPressureWait := (o.max_in_flight % 2 ^ 64).toNat
      let calls := calls ++ [.Log "debug" "Creating persistent message producer",
                             .BuildPublisher backPressureWait]
      match client.getMessagingService with
      | none => none
      | some ms =>
        match ms.BuildPublisher backPressureWait with
        | .error err => some ⟨some err, { o with persistentPublisher := none }, calls⟩
        | .ok persistentPublisher =>
          let o := { o with persistentPublisher := some persistentPublisher }
          let calls := calls ++ [.Log "debug" "Starting persistent message producer", .Start]
          match persistentPublisher.Start with
          | some err => some ⟨some err, o, calls⟩
          | none => some ⟨none, o, calls⟩

/-- Method `solaceOutput.Close` of output.go. -/
def solaceOutput.Close (a : solaceOutput) : Option Error × List Call :=
  match a.client with
  | none => (some "client is nil", [])
  | some client => client.Disconnect

/-- Method `solaceOutput.Write` of output.go: the error returned and the calls
made.  `none` is the panic of a nil dereference (no client, no session, no
topic template or no publisher). -/
def solaceOutput.Write (o : solaceOutput) (msg : Message) : Option (Option Error × List Call) :=
  match o.client with
  | none => none
  | some client =>
    match client.getMessagingService with
    | none => none
    | some ms =>
      match msg.AsBytes with
      | .error err => some (some err, [.MessageBuilder])
      | .ok data =>
        match ms.BuildWithByteArrayPayload data with
        | .error err => some (some err, [.MessageBuilder, .BuildWithByteArrayPayload data])
        | .ok message =>
          match o.endpointConfig.topicName with
          | none => none
          | some topicName =>
            let topic := TopicOf (topicName.String msg)
            match o.persistentPublisher with
            | none => none
            | some persistentPublisher =>
              some (persistentPublisher.Publish message topic,
                [.MessageBuilder, .BuildWithByteArrayPayload data, .Publish message topic])

/-! ## Configuration: `stripPropertyName`, the schema, `initSharedConfig` -/

/-- Go `strings.LastIndex(s, ".")` on the characters of `s`, scanning from
position `i`, with `last` the last match seen so far (-1: none). -/
def lastIndexFrom : List Char → Nat → Int → Int
  | [], _, last => last
  | c :: cs, i, last => lastIndexFrom cs (i + 1) (if c = '.' then (i : Int) else last)

/-- Go `strings.LastIndex(s, ".")`: -1 when `s` has no '.'.  Positions are
counted in characters where Go counts bytes; '.' is a single byte, so the
part of `s` after that position is the same. -/
def LastIndex (s : List Char) : Int := lastIndexFrom s 0 (-1)

/-- Go `strings.ReplaceAll(s, "-", "_")`. -/
def ReplaceAll (s : List Char) : List Char :=
  s.map (fun c => if c = '-' then '_' else c)

/-- A run of code points in a Unicode table: those from `lo` to `hi`, every
second one (counted from `lo`) when `alternate`. -/
structure CodeRange where
  lo : Nat
  hi : Nat
  alternate : Bool

/-- Whether the run holds the code point `n`. -/
def CodeRange.covers (r : CodeRange) (n : Nat) : Bool :=
  Nat.ble r.lo n && Nat.ble n r.hi && (!r.alternate || Nat.beq ((n - r.lo) % 2) 0)

/-- The lower-case mappings of Go's `unicode.ToLower` outside ASCII: the simple
lower-case mappings of the Unicode Character Database (version 14.0; 15.0 has
the same), from which the tables of Go's package `unicode` are made.  Each row
is a run of code points and the code point that the first of them maps to;
the others keep their distance from it. -/
def lowerRanges : List (CodeRange × Nat) :=
  [(CodeRange.mk 192 214 false, 224), (CodeRange.mk 216 222 false, 248),
   (CodeRange.mk 256 302 true, 257), (CodeRange.mk 304 304 false, 105),
   (CodeRange.mk 306 310 true, 307), (CodeRange.mk 313 327 true, 314),
   (CodeRange.mk 330 374 true, 331), (CodeRange.mk 376 376 false, 255),
   (CodeRange.mk 377 381 true, 378), (CodeRange.mk 385 385 false, 595),
   (CodeRange.mk 386 388 true, 387), (CodeRange.mk 390 390 false, 596),
   (CodeRange.mk 391 391 false, 392), (CodeRange.mk 393 394 false, 598),
   (CodeRange.mk 395 395 false, 396), (CodeRange.mk 398 398 false, 477),
   (CodeRange.mk 399 399 false, 601), (CodeRange.mk 400 400 false, 603),
   (CodeRange.mk 401 401 false, 402), (CodeRange.mk 403 403 false, 608),
   (CodeRange.mk 404 404 false, 611), (CodeRange.mk 406 406 false, 617),
   (CodeRange.mk 407 407 false, 616), (CodeRange.mk 408 408 false, 409),
   (CodeRange.mk 412 412 false, 623), (CodeRange.mk 413 413 false, 626),
   (CodeRange.mk 415 415 false, 629), (CodeRange.mk 416 420 true, 417),
   (CodeRange.mk 422 422 false, 640), (CodeRange.mk 423 423 false, 424),
   (CodeRange.mk 425 425 false, 643), (CodeRange.mk 428 428 false, 429),
   (CodeRange.mk 430 430 false, 648), (CodeRange.mk 431 431 false, 432),
   (CodeRange.mk 433 434 false, 650), (CodeRange.mk 435 437 true, 436),
   (CodeRange.mk 439 439 false, 658), (CodeRange.mk 440 440 false, 441),
   (CodeRange.mk 444 444 false, 445), (CodeRange.mk 452 452 false, 454),
   (CodeRange.mk 453 453 false, 454), (CodeRange.mk 455 455 false, 457),
   (CodeRange.mk 456 456 false, 457), (CodeRange.mk 458 458 false, 460),
   (CodeRange.mk 459 475 true, 460), (CodeRange.mk 478 494 true, 479),
   (CodeRange.mk 497 497 false, 499), (CodeRange.mk 498 500 true, 499),
   (CodeRange.mk 502 502 false, 405), (CodeRange.mk 503 503 false, 447),
   (CodeRange.mk 504 542 true, 505), (CodeRange.mk 544 544 false, 414),
   (CodeRange.mk 546 562 true, 547), (CodeRange.mk 570 570 false, 11365),
   (CodeRange.mk 571 571 false, 572), (CodeRange.mk 573 573 false, 410),
   (CodeRange.mk 574 574 false, 11366), (CodeRange.mk 577 577 false, 578),
   (CodeRange.mk 579 579 false, 384), (CodeRange.mk 580 580 false, 649),
   (CodeRange.mk 581 581 false, 652), (CodeRange.mk 582 590 true, 583),
   (CodeRange.mk 880 882 true, 881), (CodeRange.mk 886 886 false, 887),
   (CodeRange.mk 895 895 false, 1011), (CodeRange.mk 902 902 false, 940),
   (CodeRange.mk 904 906 false, 941), (CodeRange.mk 908 908 false, 972),
   (CodeRange.mk 910 911 false, 973), (CodeRange.mk 913 929 false, 945),
   (CodeRange.mk 931 939 false, 963), (CodeRange.mk 975 975 false, 983),
   (CodeRange.mk 984 1006 true, 985), (CodeRange.mk 1012 1012 false, 952),
   (CodeRange.mk 1015 1015 false, 1016), (CodeRange.mk 1017 1017 false, 1010),
   (CodeRange.mk 1018 1018 false, 1019), (CodeRange.mk 1021 1023 false, 891),
   (CodeRange.mk 1024 1039 false, 1104), (CodeRange.mk 1040 1071 false, 1072),
   (CodeRange.mk 1120 1152 true, 1121), (CodeRange.mk 1162 1214 true, 1163),
   (CodeRange.mk 1216 1216 false, 1231), (CodeRange.mk 1217 1229 true, 1218),
   (CodeRange.mk 1232 1326 true, 1233), (CodeRange.mk 1329 1366 false, 1377),
   (CodeRange.mk 4256 4293 false, 11520), (CodeRange.mk 4295 4295 false, 11559),
   (CodeRange.mk 4301 4301 false, 11565), (CodeRange.mk 5024 5103 false, 43888),
   (CodeRange.mk 5104 5109 false, 5112), (CodeRange.mk 7312 7354 false, 4304),
   (CodeRange.mk 7357 7359 false, 4349), (CodeRange.mk 7680 7828 true, 7681),
   (CodeRange.mk 7838 7838 false, 223), (CodeRange.mk 7840 7934 true, 7841),
   (CodeRange.mk 7944 7951 false, 7936), (CodeRange.mk 7960 7965 false, 7952),
   (CodeRange.mk 7976 7983 false, 7968), (CodeRange.mk 7992 7999 false, 7984),
   (CodeRange.mk 8008 8013 false, 8000), (CodeRange.mk 8025 8031 true, 8017),
   (CodeRange.mk 8040 8047 false, 8032), (CodeRange.mk 8072 8079 false, 8064),
   (CodeRange.mk 8088 8095 false, 8080), (CodeRange.mk 8104 8111 false, 8096),
   (CodeRange.mk 8120 8121 false, 8112), (CodeRange.mk 8122 8123 false, 8048),
   (CodeRange.mk 8124 8124 false, 8115), (CodeRange.mk 8136 8139 false, 8050),
   (CodeRange.mk 8140 8140 false, 8131), (CodeRange.mk 8152 8153 false, 8144),
   (CodeRange.mk 8154 8155 false, 8054), (CodeRange.mk 8168 8169 false, 8160),
   (CodeRange.mk 8170 8171 false, 8058), (CodeRange.mk 8172 8172 false, 8165),
   (CodeRange.mk 8184 8185 false, 8056), (CodeRange.mk 8186 8187 false, 8060),
   (CodeRange.mk 8188 8188 false, 8179), (CodeRange.mk 8486 8486 false, 969),
   (CodeRange.mk 8490 8490 false, 107), (CodeRange.mk 8491 8491 false, 229),
   (CodeRange.mk 8498 8498 false, 8526), (CodeRange.mk 8544 8559 false, 8560),
   (CodeRange.mk 8579 8579 false, 8580), (CodeRange.mk 9398 9423 false, 9424),
   (CodeRange.mk 11264 11311 false, 11312), (CodeRange.mk 11360 11360 false, 11361),
   (CodeRange.mk 11362 11362 false, 619), (CodeRange.mk 11363 11363 false, 7549),
   (CodeRange.mk 11364 11364 false, 637), (CodeRange.mk 11367 11371 true, 11368),
   (CodeRange.mk 11373 11373 false, 593), (CodeRange.mk 11374 11374 false, 625),
   (CodeRange.mk 11375 11375 false, 592), (CodeRange.mk 11376 11376 false, 594),
   (CodeRange.mk 11378 11378 false, 11379), (CodeRange.mk 11381 11381 false, 11382),
   (CodeRange.mk 11390 11391 false, 575), (CodeRange.mk 11392 11490 true, 11393),
   (CodeRange.mk 11499 11501 true, 11500), (CodeRange.mk 11506 11506 false, 11507),
   (CodeRange.mk 42560 42604 true, 42561), (CodeRange.mk 42624 42650 true, 42625),
   (CodeRange.mk 42786 42798 true, 42787), (CodeRange.mk 42802 42862 true, 42803),
   (CodeRange.mk 42873 42875 true, 42874), (CodeRange.mk 42877 42877 false, 7545),
   (CodeRange.mk 42878 42886 true, 42879), (CodeRange.mk 42891 42891 false, 42892),
   (CodeRange.mk 42893 42893 false, 613), (CodeRange.mk 42896 42898 true, 42897),
   (CodeRange.mk 42902 42920 true, 42903), (CodeRange.mk 42922 42922 false, 614),
   (CodeRange.mk 42923 42923 false, 604), (CodeRange.mk 42924 42924 false, 609),
   (CodeRange.mk 42925 42925 false, 620), (CodeRange.mk 42926 42926 false, 618),
   (CodeRange.mk 42928 42928 false, 670), (CodeRange.mk 42929 42929 false, 647),
   (CodeRange.mk 42930 42930 false, 669), (CodeRange.mk 42931 42931 false, 43859),
   (CodeRange.mk 42932 42946 true, 42933), (CodeRange.mk 42948 42948 false, 42900),
   (CodeRange.mk 42949 42949 false, 642), (CodeRange.mk 42950 42950 false, 7566),
   (CodeRange.mk 42951 42953 true, 42952), (CodeRange.mk 42960 42960 false, 42961),
   (CodeRange.mk 42966 42968 true, 42967), (CodeRange.mk 42997 42997 false, 42998),
   (CodeRange.mk 65313 65338 false, 65345), (CodeRange.mk 66560 66599 false, 66600),
   (CodeRange.mk 66736 66771 false, 66776), (CodeRange.mk 66928 66938 false, 66967),
   (CodeRange.mk 66940 66954 false, 66979), (CodeRange.mk 66956 66962 false, 66995),
   (CodeRange.mk 66964 66965 false, 67003), (CodeRange.mk 68736 68786 false, 68800),
   (CodeRange.mk 71840 71871 false, 71872), (CodeRange.mk 93760 93791 false, 93792),
   (CodeRange.mk 125184 125217 false, 125218)]

/-- The upper-case letters of Go's `unicode.IsUpper`: the code points of
general category Lu of the Unicode Character Database (version 14.0; 15.0 has
the same). -/
def upperRanges : List CodeRange :=
  [CodeRange.mk 65 90 false, CodeRange.mk 192 214 false, CodeRange.mk 216 222 false,
   CodeRange.mk 256 310 true, CodeRange.mk 313 327 true, CodeRange.mk 330 376 true,
   CodeRange.mk 377 381 true, CodeRange.mk 385 386 false, CodeRange.mk 388 390 true,
   CodeRange.mk 391 393 true, CodeRange.mk 394 395 false, CodeRange.mk 398 401 false,
   CodeRange.mk 403 404 false, CodeRange.mk 406 408 false, CodeRange.mk 412 413 false,
   CodeRange.mk 415 416 false, CodeRange.mk 418 422 true, CodeRange.mk 423 425 true,
   CodeRange.mk 428 430 true, CodeRange.mk 431 433 true, CodeRange.mk 434 435 false,
   CodeRange.mk 437 439 true, CodeRange.mk 440 440 false, CodeRange.mk 444 444 false,
   CodeRange.mk 452 452 false, CodeRange.mk 455 455 false, CodeRange.mk 458 458 false,
   CodeRange.mk 461 475 true, CodeRange.mk 478 494 true, CodeRange.mk 497 497 false,
   CodeRange.mk 500 502 true, CodeRange.mk 503 504 false, CodeRange.mk 506 562 true,
   CodeRange.mk 570 571 false, CodeRange.mk 573 574 false, CodeRange.mk 577 579 true,
   CodeRange.mk 580 582 false, CodeRange.mk 584 590 true, CodeRange.mk 880 882 true,
   CodeRange.mk 886 886 false, CodeRange.mk 895 895 false, CodeRange.mk 902 904 true,
   CodeRange.mk 905 906 false, CodeRange.mk 908 910 true, CodeRange.mk 911 913 true,
   CodeRange.mk 914 929 false, CodeRange.mk 931 939 false, CodeRange.mk 975 975 false,
   CodeRange.mk 978 980 false, CodeRange.mk 984 1006 true, CodeRange.mk 1012 1012 false,
   CodeRange.mk 1015 1017 true, CodeRange.mk 1018 1018 false, CodeRange.mk 1021 1071 false,
   CodeRange.mk 1120 1152 true, CodeRange.mk 1162 1216 true, CodeRange.mk 1217 1229 true,
   CodeRange.mk 1232 1326 true, CodeRange.mk 1329 1366 false, CodeRange.mk 4256 4293 false,
   CodeRange.mk 4295 4295 false, CodeRange.mk 4301 4301 false, CodeRange.mk 5024 5109 false,
   CodeRange.mk 7312 7354 false, CodeRange.mk 7357 7359 false, CodeRange.mk 7680 7828 true,
   CodeRange.mk 7838 7934 true, CodeRange.mk 7944 7951 false, CodeRange.mk 7960 7965 false,
   CodeRange.mk 7976 7983 false, CodeRange.mk 7992 7999 false, CodeRange.mk 8008 8013 false,
   CodeRange.mk 8025 8031 true, CodeRange.mk 8040 8047 false, CodeRange.mk 8120 8123 false,
   CodeRange.mk 8136 8139 false, CodeRange.mk 8152 8155 false, CodeRange.mk 8168 8172 false,
   CodeRange.mk 8184 8187 false, CodeRange.mk 8450 8450 false, CodeRange.mk 8455 8455 false,
   CodeRange.mk 8459 8461 false, CodeRange.mk 8464 8466 false, CodeRange.mk 8469 8469 false,
   CodeRange.mk 8473 8477 false, CodeRange.mk 8484 8490 true, CodeRange.mk 8491 8493 false,
   CodeRange.mk 8496 8499 false, CodeRange.mk 8510 8511 false, CodeRange.mk 8517 8517 false,
   CodeRange.mk 8579 8579 false, CodeRange.mk 11264 11311 false, CodeRange.mk 11360 11362 true,
   CodeRange.mk 11363 11364 false, CodeRange.mk 11367 11373 true, CodeRange.mk 11374 11376 false,
   CodeRange.mk 11378 11378 false, CodeRange.mk 11381 11381 false, CodeRange.mk 11390 11392 false,
   CodeRange.mk 11394 11490 true, CodeRange.mk 11499 11501 true, CodeRange.mk 11506 11506 false,
   CodeRange.mk 42560 42604 true, CodeRange.mk 42624 42650 true, CodeRange.mk 42786 42798 true,
   CodeRange.mk 42802 42862 true, CodeRange.mk 42873 42877 true, CodeRange.mk 42878 42886 true,
   CodeRange.mk 42891 42893 true, CodeRange.mk 42896 42898 true, CodeRange.mk 42902 42922 true,
   CodeRange.mk 42923 42926 false, CodeRange.mk 42928 42932 false, CodeRange.mk 42934 42948 true,
   CodeRange.mk 42949 42951 false, CodeRange.mk 42953 42953 false, CodeRange.mk 42960 42960 false,
   CodeRange.mk 42966 42968 true, CodeRange.mk 42997 42997 false, CodeRange.mk 65313 65338 false,
   CodeRange.mk 66560 66599 false, CodeRange.mk 66736 66771 false, CodeRange.mk 66928 66938 false,
   CodeRange.mk 66940 66954 false, CodeRange.mk 66956 66962 false, CodeRange.mk 66964 66965 false,
   CodeRange.mk 68736 68786 false, CodeRange.mk 71840 71871 false, CodeRange.mk 93760 93791 false,
   CodeRange.mk 119808 119833 false, CodeRange.mk 119860 119885 false,
   CodeRange.mk 119912 119937 false, CodeRange.mk 119964 119966 true,
   CodeRange.mk 119967 119967 false, CodeRange.mk 119970 119970 false,
   CodeRange.mk 119973 119974 false, CodeRange.mk 119977 119980 false,
   CodeRange.mk 119982 119989 false, CodeRange.mk 120016 120041 false,
   CodeRange.mk 120068 120069 false, CodeRange.mk 120071 120074 false,
   CodeRange.mk 120077 120084 false, CodeRange.mk 120086 120092 false,
   CodeRange.mk 120120 120121 false, CodeRange.mk 120123 120126 false,
   CodeRange.mk 120128 120132 false, CodeRange.mk 120134 120134 false,
   CodeRange.mk 120138 120144 false, CodeRange.mk 120172 120197 false,
   CodeRange.mk 120224 120249 false, CodeRange.mk 120276 120301 false,
   CodeRange.mk 120328 120353 false, CodeRange.mk 120380 120405 false,
   CodeRange.mk 120432 120457 false, CodeRange.mk 120488 120512 false,
   CodeRange.mk 120546 120570 false, CodeRange.mk 120604 120628 false,
   CodeRange.mk 120662 120686 false, CodeRange.mk 120720 120744 false,
   CodeRange.mk 120778 120778 false, CodeRange.mk 125184 125217 false]

/-- Go's `unicode.ToLower` on a code point outside ASCII. -/
def toLowerCode (n : Nat) : Nat :=
  match lowerRanges.find? (fun row => row.1.covers n) with
  | some row => row.2 + (n - row.1.lo)
  | none => n

/-- Go's `unicode.ToLower`: A-Z to a-z within ASCII, the Unicode table
outside. -/
def unicodeToLower (c : Char) : Char :=
  if c.toNat < 128 then c.toLower else Char.ofNat (toLowerCode c.toNat)

/-- Go's `unicode.IsUpper`: whether the character is an upper-case letter. -/
def IsUpper (c : Char) : Bool :=
  upperRanges.any (fun r => r.covers c.toNat)

/-- Go's `strings.ToLower(s)`: every character through `unicode.ToLower`. -/
def ToLower (s : List Char) : List Char := s.map unicodeToLower

/-- The check of a row `row` of the lower-case table against a row `other`:
no image of `row` is held by `other`, because the images lie below or above
`other`, or because they fall between the code points that `other` holds. -/
def separate (row other : CodeRange × Nat) : Bool :=
  Nat.blt (row.2 + (row.1.hi - row.1.lo)) other.1.lo ||
  Nat.blt other.1.hi row.2 ||
  (other.1.alternate && (row.1.alternate || Nat.beq row.1.lo row.1.hi) &&
    Nat.beq ((row.2 + other.1.lo) % 2) 1)

/-- The check of a row of the lower-case table: its images start at 'a' or
later, are valid code points, and are not mapped any further. -/
def rowOK (row : CodeRange × Nat) : Bool :=
  Nat.ble 97 row.2 &&
  (Nat.blt (row.2 + (row.1.hi - row.1.lo)) 55296 ||
    (Nat.ble 57344 row.2 && Nat.blt (row.2 + (row.1.hi - row.1.lo)) 1114112)) &&
  lowerRanges.all (separate row)

/-- Function `stripPropertyName` of helpers.go. -/
def stripPropertyName (propertyName : String) : String :=
  let prop := propertyName.data
  let shortConfig := prop.drop (LastIndex prop + 1).toNat
  String.mk (ToLower (ReplaceAll shortConfig))

/-- The claim's words for the part of `s` after its last '.' (all of `s` when
it has none): the longest end of `s` that holds no '.'. -/
def afterLastDot (s : List Char) : List Char :=
  (s.reverse.takeWhile (fun c => c != '.')).reverse

/-- The claim's words for `stripPropertyName`: the part after the last '.',
every '-' replaced by '_', then lower-cased. -/
def stripPropertyNameSpec (p : String) : String :=
  String.mk (ToLower ((afterLastDot p.data).map (fun c => if c = '-' then '_' else c)))

/-- The constants of the SDK package `solace.dev/go/messaging/pkg/solace/config`
that this package names.  That package is no part of these sources, so its
constants are a parameter of everything that uses them. -/
structure ConfigConstants where
  TransportLayerPropertyHost : String
  TransportLayerPropertyKeepAliveInterval : String
  TransportLayerPropertyConnectionRetries : String
  TransportLayerPropertyConnectionRetriesPerHost : String
  TransportLayerPropertyReconnectionAttempts : String
  TransportLayerPropertyReconnectionAttemptsWaitInterval : String
  ServicePropertyVPNName : String
  ServicePropertyGenerateReceiveTimestamps : String
  ServicePropertyGenerateSenderID : String
  ServicePropertyGenerateSendTimestamps : String
  AuthenticationPropertyScheme : String
  AuthenticationPropertySchemeBasicUserName : String
  AuthenticationPropertySchemeBasicPassword : String
  AuthenticationPropertySchemeOAuth2AccessToken : String
  AuthenticationPropertySchemeOAuth2IssuerIdentifier : String
  AuthenticationPropertySchemeOAuth2OIDCIDToken : String
  AuthenticationPropertySchemeSSLClientCertFile : String
  AuthenticationPropertySchemeSSLClientPrivateKeyFile : String
  AuthenticationPropertySchemeClientCertPrivateKeyFilePassword : String
  AuthenticationPropertySchemeClientCertUserName : String
  deriving DecidableEq, Repr

/-- Modelled from the spec: the values of the SDK constants, which are not in
the sources.  Each is the namespace "solace.messaging.", the group, and the
field name that section 6 of the spec lists, written with '-' for '_', so that
`stripPropertyName` yields exactly the field names of the spec. -/
def sdk : ConfigConstants where
  TransportLayerPropertyHost := "solace.messaging.transport.host"
  TransportLayerPropertyKeepAliveInterval := "solace.messaging.transport.keep-alive-interval"
  TransportLayerPropertyConnectionRetries := "solace.messaging.transport.connection-retries"
  TransportLayerPropertyConnectionRetriesPerHost :=
    "solace.messaging.transport.connection-retries-per-host"
  TransportLayerPropertyReconnectionAttempts := "solace.messaging.transport.reconnection-attempts"
  TransportLayerPropertyReconnectionAttemptsWaitInterval :=
    "solace.messaging.transport.reconnection-attempts-wait-interval"
  ServicePropertyVPNName := "solace.messaging.service.vpn-name"
  ServicePropertyGenerateReceiveTimestamps :=
    "solace.messaging.service.generate-receive-timestamps"
  ServicePropertyGenerateSenderID := "solace.messaging.service.generate-sender-id"
  ServicePropertyGenerateSendTimestamps := "solace.messaging.service.generate-send-timestamps"
  AuthenticationPropertyScheme := "solace.messaging.authentication.scheme"
  AuthenticationPropertySchemeBasicUserName := "solace.messaging.authentication.basic.user-name"
  AuthenticationPropertySchemeBasicPassword := "solace.messaging.authentication.basic.password"
  AuthenticationPropertySchemeOAuth2AccessToken :=
    "solace.messaging.authentication.oauth2.access-token"
  AuthenticationPropertySchemeOAuth2IssuerIdentifier :=
    "solace.messaging.authentication.oauth2.issuer-identifier"
  AuthenticationPropertySchemeOAuth2OIDCIDToken :=
    "solace.messaging.authentication.oauth2.oidc-id-token"
  AuthenticationPropertySchemeSSLClientCertFile :=
    "solace.messaging.authentication.client-cert.cert-file"
  AuthenticationPropertySchemeSSLClientPrivateKeyFile :=
    "solace.messaging.authentication.client-cert.private-key-file"
  AuthenticationPropertySchemeClientCertPrivateKeyFilePassword :=
    "solace.messaging.authentication.client-cert.private-key-password"
  AuthenticationPropertySchemeClientCertUserName :=
    "solace.messaging.authentication.client-cert.user-name"

/-- Variable `obfuscatedProperties` of config.go. -/
def obfuscatedProperties (config : ConfigConstants) : List String :=
  [ config.AuthenticationPropertySchemeBasicPassword,
    config.AuthenticationPropertySchemeClientCertPrivateKeyFilePassword,
    config.AuthenticationPropertySchemeOAuth2AccessToken,
    config.AuthenticationPropertySchemeOAuth2OIDCIDToken ]

/-- The type a schema field is declared with (`NewStringField`,
`NewStringEnumField`, `NewIntField`, `NewBoolField`). -/
inductive FieldType where
  | string
  | int
  | bool
  deriving DecidableEq, Repr

/-- One leaf field of the schema: the names of the objects around it and its
own name, its declared type, and the SDK constant its name is stripped from. -/
structure ConfigField where
  path : List String
  type : FieldType
  property : String
  deriving DecidableEq, Repr

/-- The leaf `stripPropertyName(property)` inside the objects `objects`. -/
def ConfigField.of (objects : List String) (type : FieldType) (property : String) :
    ConfigField :=
  ⟨objects ++ [stripPropertyName property], type, property⟩

/-- Function `getDefaultConfigFields` of config.go: the leaf fields it
declares, in source order (descriptions, examples and defaults left out). -/
def getDefaultConfigFields (config : ConfigConstants) : List ConfigField :=
  [ .of ["transport"] .string config.TransportLayerPropertyHost,
    .of ["transport"] .int config.TransportLayerPropertyKeepAliveInterval,
    .of ["transport"] .int config.TransportLayerPropertyConnectionRetries,
    .of ["transport"] .int config.TransportLayerPropertyConnectionRetriesPerHost,
    .of ["transport"] .int config.TransportLayerPropertyReconnectionAttempts,
    .of ["transport"] .int config.TransportLayerPropertyReconnectionAttemptsWaitInterval,
    .of ["service"] .string config.ServicePropertyVPNName,
    .of ["service"] .bool config.ServicePropertyGenerateReceiveTimestamps,
    .of ["service"] .bool config.ServicePropertyGenerateSenderID,
    .of ["service"] .bool config.ServicePropertyGenerateSendTimestamps,
    .of ["authentication"] .string config.AuthenticationPropertyScheme,
    .of ["authentication", "basic"] .string config.AuthenticationPropertySchemeBasicUserName,
    .of ["authentication", "basic"] .string config.AuthenticationPropertySchemeBasicPassword,
    .of ["authentication", "oauth2"] .string config.AuthenticationPropertySchemeOAuth2AccessToken,
    .of ["authentication", "oauth2"] .string
      config.AuthenticationPropertySchemeOAuth2IssuerIdentifier,
    .of ["authentication", "oauth2"] .string config.AuthenticationPropertySchemeOAuth2OIDCIDToken,
    .of ["authentication", "client_certificate"] .string
      config.AuthenticationPropertySchemeSSLClientCertFile,
    .of ["authentication", "client_certificate"] .string
      config.AuthenticationPropertySchemeSSLClientPrivateKeyFile,
    .of ["authentication", "client_certificate"] .string
      config.AuthenticationPropertySchemeClientCertPrivateKeyFilePassword,
    .of ["authentication", "client_certificate"] .string
      config.AuthenticationPropertySchemeClientCertUserName ]

/-- Modelled from the spec: the host's `service.ParsedConfig`, which is not in
the sources: "a generic config tree with typed leaves addressed by dotted
path", here the function from a path to the leaf found there. -/
abbrev ParsedConfig := List String → Option Value

/-- Modelled from the spec: `ParsedConfig.FieldString(path...)`; "a missing or
mistyped required field fails with ConfigError". -/
def ParsedConfig.FieldString (conf : ParsedConfig) (path : List String) : Except Error String :=
  match conf path with
  | some (.str s) => .ok s
  | some _ => .error ("expected field '" ++ ".".intercalate path ++ "' to be a string")
  | none => .error ("field '" ++ ".".intercalate path ++ "' was not found in the config")

/-- Modelled from the spec: `ParsedConfig.FieldInt(path...)`. -/
def ParsedConfig.FieldInt (conf : ParsedConfig) (path : List String) : Except Error Int :=
  match conf path with
  | some (.int i) => .ok i
  | some _ => .error ("expected field '" ++ ".".intercalate path ++ "' to be an int")
  | none => .error ("field '" ++ ".".intercalate path ++ "' was not found in the config")

/-- Modelled from the spec: `ParsedConfig.FieldBool(path...)`. -/
def ParsedConfig.FieldBool (conf : ParsedConfig) (path : List String) : Except Error Bool :=
  match conf path with
  | some (.bool b) => .ok b
  | some _ => .error ("expected field '" ++ ".".intercalate path ++ "' to be a bool")
  | none => .error ("field '" ++ ".".intercalate path ++ "' was not found in the config")

/-- The leaf of `conf` at a schema field has the field's declared type. -/
def ConfigField.wellTyped (f : ConfigField) (conf : ParsedConfig) : Bool :=
  match f.type, conf f.path with
  | .string, some (.str _) => true
  | .int, some (.int _) => true
  | .bool, some (.bool _) => true
  | _, _ => false

/-- Go `fmt` verb `%v` on a value. -/
def fmtV : Value → String
  | .str s => s
  | .int i => toString i
  | .bool b => if b then "true" else "false"
  | .bytes b => "[" ++ " ".intercalate (b.map (fun x => toString x.toNat)) ++ "]"

/-- The inner loop of `initSharedConfig` (client.go lines 80-84): the value
that is logged for the property `k` whose value is `v`. -/
def obfuscate (config : ConfigConstants) (k : String) (v : Value) : Value :=
  (obfuscatedProperties config).foldl (fun v obf => if k == obf then .str obfuscated else v) v

/-- The logging loop of `initSharedConfig` (client.go lines 79-86), one
`Debugf("solace property %s=%v", k, v)` per entry of the map. -/
def logProperties (config : ConfigConstants) (properties : ServicePropertyMap) : List Call :=
  properties.map fun e =>
    .Log "debug" ("solace property " ++ e.1 ++ "=" ++ fmtV (obfuscate config e.1 e.2))

/-- Method `Client.initSharedConfig` of client.go: on success the client with
its property map filled and the lines logged; on a field error that error
(the caller then drops the client). -/
def Client.initSharedConfig (config : ConfigConstants) (c : Client) (conf : ParsedConfig) :
    Except Error (Client × List Call) := do
  let p := c.properties
  let p := p.set config.TransportLayerPropertyHost (.str (← conf.FieldString
    ["transport", stripPropertyName config.TransportLayerPropertyHost]))
  let p := p.set config.TransportLayerPropertyKeepAliveInterval (.int (← conf.FieldInt
    ["transport", stripPropertyName config.TransportLayerPropertyKeepAliveInterval]))
  let p := p.set config.TransportLayerPropertyReconnectionAttempts (.int (← conf.FieldInt
    ["transport", stripPropertyName config.TransportLayerPropertyReconnectionAttempts]))
  let p := p.set config.TransportLayerPropertyReconnectionAttemptsWaitInterval
    (.int (← conf.FieldInt
      ["transport", stripPropertyName config.TransportLayerPropertyReconnectionAttemptsWaitInterval]))
  let p := p.set config.TransportLayerPropertyConnectionRetries (.int (← conf.FieldInt
    ["transport", stripPropertyName config.TransportLayerPropertyConnectionRetries]))
  let p := p.set config.TransportLayerPropertyConnectionRetriesPerHost (.int (← conf.FieldInt
    ["transport", stripPropertyName config.TransportLayerPropertyConnectionRetriesPerHost]))
  let p := p.set config.ServicePropertyVPNName (.str (← conf.FieldString
    ["service", stripPropertyName config.ServicePropertyVPNName]))
  let p := p.set config.ServicePropertyGenerateSenderID (.bool (← conf.FieldBool
    ["service", stripPropertyName config.ServicePropertyGenerateSenderID]))
  let p := p.set config.ServicePropertyGenerateSendTimestamps (.bool (← conf.FieldBool
    ["service", stripPropertyName config.ServicePropertyGenerateSendTimestamps]))
  let p := p.set config.ServicePropertyGenerateReceiveTimestamps (.bool (← conf.FieldBool
    ["service", stripPropertyName config.ServicePropertyGenerateReceiveTimestamps]))
  let p := p.set config.AuthenticationPropertyScheme (.str (← conf.FieldString
    ["authentication", stripPropertyName config.AuthenticationPropertyScheme]))
  let p := p.set config.AuthenticationPropertySchemeBasicUserName (.str (← conf.FieldString
    ["authentication", "basic",
      stripPropertyName config.AuthenticationPropertySchemeBasicUserName]))
  let p := p.set config.AuthenticationPropertySchemeBasicPassword (.str (← conf.FieldString
    ["authentication", "basic",
      stripPropertyName config.AuthenticationPropertySchemeBasicPassword]))
  return ({ c with properties := p }, logProperties config p)

/-- Function `NewSharedSolaceClient` of client.go. -/
def NewSharedSolaceClient (config : ConfigConstants) (conf : ParsedConfig) :
    Except Error (Client × List Call) :=
  Client.initSharedConfig config { messagingService := none, properties := [] } conf

/-- Function `solaceInputFromConfig` of input.go: the adapter starts with no
receiver. -/
def solaceInputFromConfig (config : ConfigConstants) (conf : ParsedConfig) :
    Except Error (solaceInput × List Call) := do
  let (client, calls) ← NewSharedSolaceClient config conf
  let queueName ← conf.FieldString [endpointObject, queueNameField]
  return ({ client := client, persistentReceiver := none, endpointConfig := ⟨queueName, none⟩ }, calls)

/-! ## Sample values -/

/-- A message with a byte payload, no optional header and no property. -/
def plainMessage : InboundMessage where
  payloadAsBytes := some [104, 105]
  payloadAsString := none
  destinationName := "my/queue"
  applicationMessageID := none
  applicationMessageType := none
  correlationID := none
  httpContentEncoding := none
  httpContentType := none
  senderID := none
  replicationGroupMessageID := none
  priority := none
  properties := []

/-- A running receiver with `msg` ready to be received. -/
def readyReceiver (msg : InboundMessage) : PersistentMessageReceiver where
  IsRunning := true
  ReceiveMessage := some (.ok msg)
  Ack := fun _ => none
  Terminate := fun _ => none
  Start := none

/-- An input adapter, never connected to a session, holding `reader`. -/
def inputWith (reader : Option PersistentMessageReceiver) : solaceInput where
  client := { messagingService := none, properties := [] }
  persistentReceiver := reader
  endpointConfig := ⟨"my/queue", none⟩

/-- A message with a string payload only. -/
def textMessage : InboundMessage :=
  { plainMessage with payloadAsBytes := none, payloadAsString := some "hi" }

/-- A context that is not cancelled. -/
def liveCtx : Context := ⟨none⟩

/-- The schedule on which the worker receives, offers its outcome, and the
`select` takes it. -/
def deliverSchedule : List Step := [.workerCall, .workerReturn, .selectRecv]

/-- A running receiver whose `Terminate` and `Start` both report an error. -/
def faultyReceiver : PersistentMessageReceiver where
  IsRunning := true
  ReceiveMessage := none
  Ack := fun _ => none
  Terminate := fun _ => some "terminate failed"
  Start := some "start failed"

/-- A session that connects, builds `faultyReceiver` for every queue, and
whose disconnect reports an error. -/
def sampleService : MessagingService where
  Connect := none
  Disconnect := some "disconnect failed"
  BuildReceiver := fun _ => .ok faultyReceiver
  BuildPublisher := fun _ => .error "no publisher"
  BuildWithByteArrayPayload := fun data => .ok ⟨data⟩

/-- An input adapter connected to `sampleService`, holding `faultyReceiver`. -/
def connectedInput : solaceInput where
  client := { messagingService := some sampleService, properties := [] }
  persistentReceiver := some faultyReceiver
  endpointConfig := ⟨"my/queue", none⟩

/-- A configuration tree in which every field of the schema is present and
well typed (under the constants `sdk`). -/
def fullConfig : ParsedConfig
  | ["transport", "host"] => some (.str "tcp://localhost:55555")
  | ["transport", "keep_alive_interval"] => some (.int 32000)
  | ["transport", "connection_retries"] => some (.int 5)
  | ["transport", "connection_retries_per_host"] => some (.int 3)
  | ["transport", "reconnection_attempts"] => some (.int (-1))
  | ["transport", "reconnection_attempts_wait_interval"] => some (.int 1000)
  | ["service", "vpn_name"] => some (.str "default")
  | ["service", "generate_receive_timestamps"] => some (.bool false)
  | ["service", "generate_sender_id"] => some (.bool true)
  | ["service", "generate_send_timestamps"] => some (.bool false)
  | ["authentication", "scheme"] => some (.str "AUTHENTICATION_SCHEME_OAUTH2")
  | ["authentication", "basic", "user_name"] => some (.str "admin")
  | ["authentication", "basic", "password"] => some (.str "hunter2")
  | ["authentication", "oauth2", "access_token"] => some (.str "token-abc")
  | ["authentication", "oauth2", "issuer_identifier"] => some (.str "https://issuer")
  | ["authentication", "oauth2", "oidc_id_token"] => some (.str "id-token-xyz")
  | ["authentication", "client_certificate", "cert_file"] => some (.str "client.pem")
  | ["authentication", "client_certificate", "private_key_file"] => some (.str "client.key")
  | ["authentication", "client_certificate", "private_key_password"] => some (.str "s3cret")
  | ["authentication", "client_certificate", "user_name"] => some (.str "cert-user")
  | _ => none

/-- A publisher that starts and whose `Publish` reports an error for the
topic "my/topic/rejected" and succeeds for every other. -/
def samplePublisher : PersistentMessagePublisher where
  Start := none
  Publish := fun _ topic => if topic.name = "my/topic/rejected" then some "rejected" else none

/-- A session that connects, builds `samplePublisher`, and builds a broker
message from every payload. -/
def publishService : MessagingService :=
  { sampleService with BuildPublisher := fun _ => .ok samplePublisher }

/-- A session like `publishService` that cannot build a broker message. -/
def brokenBuilderService : MessagingService :=
  { publishService with BuildWithByteArrayPayload := fun _ => .error "build failed" }

/-- The topic template "my/topic/" followed by the metadata value `kind`. -/
def topicByKind : InterpolatedString where
  String := fun msg =>
    "my/topic/" ++
      match msg.meta.lookup "kind" with
      | some (.str kind) => kind
      | _ => "null"

/-- An output adapter as `solaceOutputFromConfig` leaves it, before `Connect`. -/
def freshOutput : solaceOutput where
  client := some { messagingService := none, properties := [] }
  persistentPublisher := none
  endpointConfig := ⟨"", some topicByKind⟩
  max_in_flight := 64

/-- An output adapter connected to `service`, with `samplePublisher` started. -/
def outputOn (service : MessagingService) : solaceOutput :=
  { freshOutput with
    client := some { messagingService := some service, properties := [] }
    persistentPublisher := some samplePublisher }

/-- An outgoing message with payload "hi" and the metadata value `kind`. -/
def outgoing (kind : String) : Message := ⟨[104, 105], [("kind", .str kind)]⟩

/-- A context that was cancelled. -/
def cancelledCtx : Context := ⟨some "context canceled"⟩

/-! ## Invariants of the bridge -/

/-- The state in which a worker is stranded: unbuffered empty channel, the
caller gone from its `select` with `c`, the worker at its send. -/
def Stranded (c : Caller) (r : receivedMessage) (s : Bridge) : Prop :=
  s.msgChan.capacity = 0 ∧ s.msgChan.buf = [] ∧ s.caller = c ∧ s.worker = .atSend r

/-- What holds throughout a `ReadBatch` whose context was cancelled with `e`
from the start and whose receiver answers `avail`: the context stays
cancelled, the channel stays unbuffered and empty, what the worker offers and
what the caller gets is the receiver's answer, and the channel is not closed
while the caller is still in its `select`. -/
def CancelledRun (e : Error) (avail : Option (Except Error InboundMessage)) (s : Bridge) :
    Prop :=
  s.ctx.err = some e ∧ s.reader.ReceiveMessage = avail ∧
  s.msgChan.capacity = 0 ∧ s.msgChan.buf = [] ∧
  (∀ x, s.worker = .atSend x → ∃ res, avail = some res ∧ x = toReceived res) ∧
  (s.caller = .atSelect → s.msgChan.closed = false ∧ s.worker ≠ .atClose) ∧
  (∀ x, s.caller = .received x → ∃ res, avail = some res ∧ x = toReceived res) ∧
  (∀ e', s.caller = .cancelled e' → e' = e)

/-- What holds throughout any `ReadBatch`: the channel is unbuffered and
empty, and the worker gets past its send only by handing its outcome to the
caller's `select`. -/
def Unbuffered (s : Bridge) : Prop :=
  s.msgChan.capacity = 0 ∧ s.msgChan.buf = [] ∧
  ((s.worker = .atClose ∨ s.worker = .exited) → ∃ x, s.caller = .received x)

/-! ## Lemmas on schedules -/

theorem exec_append (s : Bridge) (xs ys : List Step) :
    s.exec (xs ++ ys) = (s.exec xs).exec ys := by
  induction xs generalizing s with
  | nil => rfl
  | cons t ts ih =>
    simp only [List.cons_append, Bridge.exec]
    cases s.step t <;> exact ih _

/-- A property kept by every step is kept by every schedule. -/
theorem exec_invariant (P : Bridge → Prop)
    (hstep : ∀ s t s', P s → s.step t = some s' → P s')
    (s : Bridge) (h : P s) (sched : List Step) : P (s.exec sched) := by
  induction sched generalizing s with
  | nil => exact h
  | cons t ts ih =>
    simp only [Bridge.exec]
    cases hs : s.step t with
    | none => exact ih s h
    | some s' => exact ih s' (hstep s t s' h hs)

/-- With a receiver present and running, `ReadBatch` is the bridge run. -/
theorem ReadBatch_running (a : solaceInput) (r : PersistentMessageReceiver) (ctx : Context)
    (sched : List Step) (hr : a.persistentReceiver = some r) (hrun : r.IsRunning = true) :
    ReadBatch a ctx sched = afterSelect ((Bridge.start ctx r).exec sched) := by
  simp [ReadBatch, hr, hrun]

theorem afterSelect_bridge (s : Bridge) : (afterSelect s).bridge = some s := by
  unfold afterSelect; split <;> rfl

theorem afterSelect_cancelled (s : Bridge) (e : Error) (h : s.caller = .cancelled e) :
    (afterSelect s).outcome = .returned none none (some e) := by
  unfold afterSelect; rw [h]

theorem afterSelect_received (s : Bridge) (rmsg : receivedMessage)
    (h : s.caller = .received rmsg) :
    (afterSelect s).outcome = afterReceive rmsg ∧ (afterSelect s).calls = s.calls := by
  unfold afterSelect; rw [h]; exact ⟨rfl, rfl⟩

theorem stranded_step {c : Caller} {r : receivedMessage} (hc : c ≠ .atSelect)
    (s : Bridge) (t : Step) (s' : Bridge)
    (h : Stranded c r s) (hs : s.step t = some s') : Stranded c r s' := by
  obtain ⟨h1, h2, h3, h4⟩ := h
  subst h3
  cases t <;> simp [Bridge.step, h1, h2, h4] at hs
  all_goals (split at hs <;> simp_all [Stranded])
  all_goals (subst hs; simp_all)

theorem stranded_send_blocked {c : Caller} {r : receivedMessage} (s : Bridge)
    (h : Stranded c r s) : s.step .workerSend = none := by
  obtain ⟨h1, h2, _, h4⟩ := h
  simp [Bridge.step, h4, h1, h2]

theorem stranded_exec {c : Caller} {r : receivedMessage} (hc : c ≠ .atSelect)
    (s : Bridge) (h : Stranded c r s) (sched : List Step) : Stranded c r (s.exec sched) :=
  exec_invariant (Stranded c r) (stranded_step hc) s h sched

theorem unbuffered_step (s : Bridge) (t : Step) (s' : Bridge)
    (h : Unbuffered s) (hs : s.step t = some s') : Unbuffered s' := by
  obtain ⟨h1, h2, h3⟩ := h
  cases t <;> simp only [Bridge.step] at hs
  all_goals (split at hs)
  all_goals (try split at hs)
  all_goals (try split at hs)
  all_goals (try simp at hs)
  all_goals (try (obtain ⟨-, hs⟩ := hs))
  all_goals (try subst hs)
  all_goals (refine ⟨?_, ?_, ?_⟩ <;> first | assumption | simp_all)

/-- Whatever the adapter, the context and the schedule: the channel that
`ReadBatch` makes has capacity 0, and when `ReadBatch` has left its `select`
through the cancellation branch the worker has neither reached `close` nor
exited. -/
theorem abandoned_worker_never_exits (a : solaceInput) (ctx : Context) (sched : List Step)
    (b : Bridge) (hb : (ReadBatch a ctx sched).bridge = some b) :
    b.msgChan.capacity = 0 ∧
    ∀ e, b.caller = .cancelled e → b.worker ≠ .atClose ∧ b.worker ≠ .exited := by
  have hinv : Unbuffered b := by
    unfold ReadBatch at hb
    split at hb
    · simp at hb
    · split at hb
      · simp at hb
      · rw [afterSelect_bridge] at hb
        cases hb
        exact exec_invariant Unbuffered unbuffered_step _
          (by simp [Unbuffered, Bridge.start, makeChan]) sched
  refine ⟨hinv.1, fun e he => ⟨fun hw => ?_, fun hw => ?_⟩⟩
  · obtain ⟨x, hx⟩ := hinv.2.2 (Or.inl hw)
    rw [he] at hx
    cases hx
  · obtain ⟨x, hx⟩ := hinv.2.2 (Or.inr hw)
    rw [he] at hx
    cases hx

/-- C1 (the code at the failing input): `ReadBatch` creates its result channel
with capacity 0.  With a message ready and the context cancelled, once the
`select` has taken the cancellation branch `ReadBatch` returns the cancellation
error, and whatever runs afterwards the worker is still at its send, which
cannot proceed: the worker never delivers its outcome and never exits. -/
theorem C1_worker_send_never_completes (sched : List Step) :
    (ReadBatch (inputWith (some (readyReceiver plainMessage))) cancelledCtx
        ([.workerCall, .workerReturn, .selectDone] ++ sched)).outcome
      = .returned none none (some "context canceled") ∧
    ∃ b, (ReadBatch (inputWith (some (readyReceiver plainMessage))) cancelledCtx
        ([.workerCall, .workerReturn, .selectDone] ++ sched)).bridge = some b ∧
      b.msgChan.capacity = 0 ∧ b.worker = .atSend ⟨some plainMessage, none⟩ ∧
      b.step .workerSend = none := by
  have hs := stranded_exec (c := .cancelled "context canceled")
    (r := ⟨some plainMessage, none⟩) (by simp)
    ((Bridge.start cancelledCtx (readyReceiver plainMessage)).exec
      [.workerCall, .workerReturn, .selectDone])
    (by simp [Stranded, Bridge.exec, Bridge.step, Bridge.start, makeChan, readyReceiver,
      cancelledCtx, toReceived])
    sched
  rw [← exec_append] at hs
  rw [ReadBatch_running _ (readyReceiver plainMessage) _ _ rfl rfl]
  exact ⟨afterSelect_cancelled _ _ hs.2.2.1, _, afterSelect_bridge _, hs.1, hs.2.2.2,
    stranded_send_blocked _ hs⟩

/-- C3: when the receiver is absent, or present but not running, `ReadBatch`
returns an error with no batch and no callback; it creates no channel and
spawns no worker, and `ReceiveMessage` is not called. -/
theorem C3_readBatch_without_running_receiver (a : solaceInput) (ctx : Context)
    (sched : List Step)
    (h : a.persistentReceiver = none ∨
      ∃ r, a.persistentReceiver = some r ∧ r.IsRunning = false) :
    (∃ e, (ReadBatch a ctx sched).outcome = .returned none none (some e)) ∧
    (ReadBatch a ctx sched).bridge = none ∧
    Call.go_getMessage ∉ (ReadBatch a ctx sched).calls ∧
    ∀ timeout, Call.ReceiveMessage timeout ∉ (ReadBatch a ctx sched).calls := by
  rcases h with h | ⟨r, hr, hrun⟩
  · simp [ReadBatch, h]
  · simp [ReadBatch, hr, hrun]

/-- C3 at an adapter that has no receiver. -/
theorem C3_readBatch_without_running_receiver_witness :
    ((inputWith none).persistentReceiver = none ∨
      ∃ r, (inputWith none).persistentReceiver = some r ∧ r.IsRunning = false) ∧
    ((∃ e, (ReadBatch (inputWith none) cancelledCtx []).outcome
        = .returned none none (some e)) ∧
    (ReadBatch (inputWith none) cancelledCtx []).bridge = none ∧
    Call.go_getMessage ∉ (ReadBatch (inputWith none) cancelledCtx []).calls ∧
    ∀ timeout, Call.ReceiveMessage timeout ∉ (ReadBatch (inputWith none) cancelledCtx []).calls) :=
  ⟨Or.inl rfl, C3_readBatch_without_running_receiver (inputWith none) cancelledCtx []
    (Or.inl rfl)⟩

theorem cancelledRun_step {e : Error} {avail : Option (Except Error InboundMessage)}
    (s : Bridge) (t : Step) (s' : Bridge)
    (h : CancelledRun e avail s) (hs : s.step t = some s') : CancelledRun e avail s' := by
  obtain ⟨h1, h2, h3, h4, h5, h6, h7, h8⟩ := h
  cases t <;> simp only [Bridge.step] at hs
  all_goals (split at hs)
  all_goals (try split at hs)
  all_goals (try split at hs)
  all_goals (try simp at hs)
  all_goals (try subst hs)
  all_goals
    (refine ⟨?_, ?_, ?_, ?_, ?_, ?_, ?_, ?_⟩ <;>
      first
        | assumption
        | (simp_all; done)
        | (simp_all; exact ⟨_, Eq.symm (by assumption), rfl⟩))

theorem cancelledRun_exec {e : Error} {avail : Option (Except Error InboundMessage)}
    (s : Bridge) (h : CancelledRun e avail s) (sched : List Step) :
    CancelledRun e avail (s.exec sched) :=
  exec_invariant (CancelledRun e avail) cancelledRun_step s h sched

/-- Once the caller is out of its `select` no step brings it back. -/
theorem step_caller_out (s : Bridge) (t : Step) (s' : Bridge)
    (h : s.caller ≠ .atSelect) (hs : s.step t = some s') : s'.caller ≠ .atSelect := by
  cases t <;> simp only [Bridge.step] at hs
  all_goals (try split at hs)
  all_goals (try split at hs)
  all_goals (try simp at hs)
  all_goals (try subst hs)
  all_goals (try simp_all)

/-- Under a cancelled context, the caller has left its `select` by the end of
every schedule that gives the cancellation branch a turn. -/
theorem cancelledRun_caller_out {e : Error} {avail : Option (Except Error InboundMessage)}
    (s : Bridge) (h : CancelledRun e avail s) (sched : List Step)
    (hsel : Step.selectDone ∈ sched) : (s.exec sched).caller ≠ .atSelect := by
  induction sched generalizing s with
  | nil => simp at hsel
  | cons t ts ih =>
    simp only [Bridge.exec]
    by_cases hc : s.caller = .atSelect
    · by_cases ht : t = .selectDone
      · subst ht
        have hs : s.step .selectDone = some { s with caller := .cancelled e } := by
          simp [Bridge.step, hc, h.1]
        rw [hs]
        exact exec_invariant (fun b => b.caller ≠ .atSelect) step_caller_out _
          (by simp) ts
      · have hts : Step.selectDone ∈ ts := by
          rcases List.mem_cons.1 hsel with h' | h'
          · exact absurd h'.symm ht
          · exact h'
        cases hs : s.step t with
        | none => exact ih s h hts
        | some s' => exact ih s' (cancelledRun_step s t s' h hs) hts
    · cases hs : s.step t with
      | none =>
        exact exec_invariant (fun b => b.caller ≠ .atSelect)
          step_caller_out _ hc ts
      | some s' =>
        exact exec_invariant (fun b => b.caller ≠ .atSelect)
          step_caller_out _ (step_caller_out s t s' hc hs) ts

theorem cancelledRun_start (ctx : Context) (r : PersistentMessageReceiver) (e : Error)
    (hctx : ctx.err = some e) : CancelledRun e r.ReceiveMessage (Bridge.start ctx r) := by
  simp [CancelledRun, Bridge.start, makeChan, hctx]

/-- C2 (as amended): with a running receiver and a context already cancelled
with `e`, under every schedule that gives the cancellation branch of the
`select` a turn, `ReadBatch` returns; when the receiver has nothing
immediately available it returns `e` with no batch and no callback; when the
receiver has a message or an error available it returns either that, or what
the received outcome leads to. -/
theorem C2_readBatch_cancelled_context (a : solaceInput) (r : PersistentMessageReceiver)
    (ctx : Context) (e : Error) (sched : List Step)
    (hr : a.persistentReceiver = some r) (hrun : r.IsRunning = true)
    (hctx : ctx.err = some e) (hsel : Step.selectDone ∈ sched) :
    (r.ReceiveMessage = none →
      (ReadBatch a ctx sched).outcome = .returned none none (some e)) ∧
    (∀ res, r.ReceiveMessage = some res →
      (ReadBatch a ctx sched).outcome = .returned none none (some e) ∨
      (ReadBatch a ctx sched).outcome = afterReceive (toReceived res)) := by
  rw [ReadBatch_running a r ctx sched hr hrun]
  have hinv := cancelledRun_exec _ (cancelledRun_start ctx r e hctx) sched
  have hout := cancelledRun_caller_out _ (cancelledRun_start ctx r e hctx) sched hsel
  obtain ⟨-, -, -, -, -, -, h7, h8⟩ := hinv
  cases hc : ((Bridge.start ctx r).exec sched).caller with
  | atSelect => exact absurd hc hout
  | cancelled e' =>
    have := h8 e' hc
    subst this
    exact ⟨fun _ => afterSelect_cancelled _ _ hc, fun _ _ => Or.inl (afterSelect_cancelled _ _ hc)⟩
  | received x =>
    obtain ⟨res, hres, hx⟩ := h7 x hc
    subst hx
    refine ⟨fun hn => ?_, fun res' hres' => Or.inr ?_⟩
    · rw [hn] at hres; cases hres
    · rw [hres'] at hres
      cases hres
      exact (afterSelect_received _ _ hc).1

/-- C2 (as amended) at a running receiver with nothing to deliver, on a schedule where the worker starts and the `select` then runs. -/
theorem C2_readBatch_cancelled_context_witness :
    ((inputWith (some { readyReceiver plainMessage with ReceiveMessage := none })).persistentReceiver
        = some { readyReceiver plainMessage with ReceiveMessage := none } ∧
      ({ readyReceiver plainMessage with ReceiveMessage := none } :
        PersistentMessageReceiver).IsRunning = true ∧
      cancelledCtx.err = some "context canceled" ∧
      Step.selectDone ∈ [Step.workerCall, Step.selectDone]) ∧
    (ReadBatch (inputWith (some { readyReceiver plainMessage with ReceiveMessage := none }))
      cancelledCtx [Step.workerCall, Step.selectDone]).outcome
        = .returned none none (some "context canceled") :=
  ⟨⟨rfl, rfl, rfl, by decide⟩,
   (C2_readBatch_cancelled_context _ _ cancelledCtx "context canceled"
      [Step.workerCall, Step.selectDone] rfl rfl rfl (by decide)).1 rfl⟩

/-- C2 (counterexample): the context is already cancelled, a message is ready;
the worker has reached its send when the `select` runs, the `select` takes the
message branch, and `ReadBatch` returns the batch, a callback and no error. -/
theorem C2_counterexample_message_wins :
    cancelledCtx.err = some "context canceled" ∧
    (readyReceiver plainMessage).IsRunning = true ∧
    (ReadBatch (inputWith (some (readyReceiver plainMessage))) cancelledCtx
        [.workerCall, .workerReturn, .selectRecv]).outcome
      = .returned (some [⟨[104, 105], [("solace_destination_name", .str "my/queue")]⟩])
          (some (ackFunc plainMessage)) none := by
  refine ⟨rfl, rfl, ?_⟩
  rfl

/-! ## Lemmas on the envelope -/

theorem metaKeys_MetaSetMut (part : Message) (key : String) (value : Value) (k : String) :
    k ∈ (part.MetaSetMut key value).metaKeys ↔ k = key ∨ k ∈ part.metaKeys := by
  simp only [Message.MetaSetMut, Message.metaKeys, List.map_append, List.mem_append,
    List.mem_map, List.mem_filter, List.mem_singleton]
  constructor
  · rintro (⟨e, ⟨he, -⟩, rfl⟩ | ⟨e, rfl, rfl⟩)
    · exact Or.inr ⟨e, he, rfl⟩
    · exact Or.inl rfl
  · rintro (rfl | ⟨e, he, rfl⟩)
    · exact Or.inr ⟨_, rfl, rfl⟩
    · by_cases hk : e.1 = key
      · exact Or.inr ⟨(key, value), rfl, hk.symm⟩
      · exact Or.inl ⟨e, ⟨he, by simpa using hk⟩, rfl⟩

theorem metaKeys_setStringHeader (part : Message) (headerName : String)
    (headerFunc : Option String) (k : String) :
    k ∈ (setStringHeader part headerName headerFunc).metaKeys ↔
      (headerFunc.isSome ∧ k = metaPrefix ++ headerName) ∨ k ∈ part.metaKeys := by
  cases headerFunc with
  | none => simp [setStringHeader]
  | some v => simp [setStringHeader, metaKeys_MetaSetMut]

theorem metaKeys_properties (props : List (String × Value)) (part : Message) (k : String) :
    k ∈ (props.foldl (fun part kv => part.MetaSetMut (metaPrefix ++ "prop_" ++ kv.1) kv.2)
        part).metaKeys ↔
      k ∈ part.metaKeys ∨ ∃ kv ∈ props, k = metaPrefix ++ "prop_" ++ kv.1 := by
  induction props generalizing part with
  | nil => simp
  | cons p ps ih =>
    simp only [List.foldl_cons, ih, metaKeys_MetaSetMut, List.mem_cons, exists_eq_or_imp]
    tauto

theorem metaKeys_NewMessage (data : Bytes) : (NewMessage data).metaKeys = [] := rfl

theorem raw_MetaSetMut (part : Message) (key : String) (value : Value) :
    (part.MetaSetMut key value).raw = part.raw := rfl

theorem raw_setStringHeader (part : Message) (headerName : String)
    (headerFunc : Option String) :
    (setStringHeader part headerName headerFunc).raw = part.raw := by
  cases headerFunc <;> rfl

theorem raw_properties (props : List (String × Value)) (part : Message) :
    (props.foldl (fun part kv => part.MetaSetMut (metaPrefix ++ "prop_" ++ kv.1) kv.2)
        part).raw = part.raw := by
  induction props generalizing part with
  | nil => rfl
  | cons p ps ih => simp only [List.foldl_cons, ih, raw_MetaSetMut]

theorem raw_setMetadata (part : Message) (msg : InboundMessage) :
    (setMetadata part msg).raw = part.raw := by
  unfold setMetadata
  simp only [raw_properties]
  split <;> split <;> simp only [raw_MetaSetMut, raw_setStringHeader]

/-- The metadata keys that `setMetadata` leaves on a fresh envelope. -/
theorem metaKeys_setMetadata (data : Bytes) (msg : InboundMessage) (k : String) :
    k ∈ (setMetadata (NewMessage data) msg).metaKeys ↔
      k = "solace_destination_name" ∨
      (msg.applicationMessageID.isSome ∧ k = "solace_message_id") ∨
      (msg.applicationMessageType.isSome ∧ k = "solace_message_type") ∨
      (msg.correlationID.isSome ∧ k = "solace_correlation_id") ∨
      (msg.httpContentEncoding.isSome ∧ k = "solace_content_encoding") ∨
      (msg.httpContentType.isSome ∧ k = "solace_content_type") ∨
      (msg.senderID.isSome ∧ k = "solace_sender_id") ∨
      (msg.replicationGroupMessageID.isSome ∧ k = "solace_rgmi") ∨
      (msg.priority.isSome ∧ k = "solace_priority") ∨
      ∃ kv ∈ msg.properties, k = "solace_prop_" ++ kv.1 := by
  have e0 : metaPrefix ++ "destination_name" = "solace_destination_name" := by decide
  have e1 : metaPrefix ++ "message_id" = "solace_message_id" := by decide
  have e2 : metaPrefix ++ "message_type" = "solace_message_type" := by decide
  have e3 : metaPrefix ++ "correlation_id" = "solace_correlation_id" := by decide
  have e4 : metaPrefix ++ "content_encoding" = "solace_content_encoding" := by decide
  have e5 : metaPrefix ++ "content_type" = "solace_content_type" := by decide
  have e6 : metaPrefix ++ "sender_id" = "solace_sender_id" := by decide
  have e7 : metaPrefix ++ "rgmi" = "solace_rgmi" := by decide
  have e8 : metaPrefix ++ "priority" = "solace_priority" := by decide
  have e9 : metaPrefix ++ "prop_" = "solace_prop_" := by decide
  unfold setMetadata
  simp only [metaKeys_properties]
  rw [e9]
  cases h7 : msg.replicationGroupMessageID <;> cases h8 : msg.priority <;>
    simp only [metaKeys_MetaSetMut, metaKeys_setStringHeader, e0, e1, e2, e3, e4, e5, e6, e7, e8,
      metaKeys_NewMessage, List.not_mem_nil, or_false, Option.isSome_none,
      Option.isSome_some, false_and, true_and, false_or, Bool.false_eq_true] <;>
    simp only [or_comm, or_left_comm, or_assoc]

/-- A `ReadBatch` that created a bridge is read off that bridge. -/
theorem ReadBatch_of_bridge (a : solaceInput) (ctx : Context) (sched : List Step) (b : Bridge)
    (hb : (ReadBatch a ctx sched).bridge = some b) : ReadBatch a ctx sched = afterSelect b := by
  unfold ReadBatch at hb ⊢
  split at hb
  · simp at hb
  · split at hb
    · simp at hb
    · rw [afterSelect_bridge] at hb
      cases hb
      rw [if_neg (by assumption)]

/-- No step of the bridge makes an `Ack` call. -/
theorem step_no_ack (s : Bridge) (t : Step) (s' : Bridge)
    (h : ∀ msg, Call.Ack msg ∉ s.calls) (hs : s.step t = some s') :
    ∀ msg, Call.Ack msg ∉ s'.calls := by
  cases t <;> simp only [Bridge.step] at hs
  all_goals (split at hs)
  all_goals (try split at hs)
  all_goals (try split at hs)
  all_goals (try simp at hs)
  all_goals (try (obtain ⟨-, hs⟩ := hs))
  all_goals (try subst hs)
  all_goals (try simpa using h)

/-- The byte form first, else the string form. -/
theorem payloadPart_eq (msg : InboundMessage) :
    payloadPart msg =
      match msg.payloadAsBytes, msg.payloadAsString with
      | some data, _ => some (NewMessage data)
      | none, some str => some (NewMessage (stringBytes str))
      | none, none => none := by
  unfold payloadPart
  cases msg.payloadAsBytes <;> cases msg.payloadAsString <;> rfl

theorem payloadPart_of_extractable (msg : InboundMessage)
    (hpay : msg.payloadAsBytes.isSome ∨ msg.payloadAsString.isSome) :
    ∃ data, payloadPart msg = some (NewMessage data) := by
  rw [payloadPart_eq]
  cases hbytes : msg.payloadAsBytes with
  | some data => exact ⟨data, rfl⟩
  | none =>
    cases hstr : msg.payloadAsString with
    | some str => exact ⟨stringBytes str, rfl⟩
    | none => simp [hbytes, hstr] at hpay

theorem afterReceive_ok (msg : InboundMessage) (part : Message)
    (hd : payloadPart msg = some part) :
    afterReceive ⟨some msg, none⟩
      = .returned (some [setMetadata part msg]) (some (ackFunc msg)) none := by
  simp [afterReceive, hd]

theorem afterReceive_undecodable (msg : InboundMessage) (hd : payloadPart msg = none) :
    afterReceive ⟨some msg, none⟩
      = .returned none none (some "could not extract content from message") := by
  simp [afterReceive, hd]

/-- C4: the envelope that `ReadBatch` produces for a received message `msg`
(one whose payload is extractable) has exactly these metadata keys:
solace_destination_name; solace_NAME for each optional header NAME that `msg`
reports as present; solace_prop_K for each key K of the properties of `msg`.
With no optional header and no property the keys are solace_destination_name
alone. -/
theorem C4_metadata_keys (a : solaceInput) (ctx : Context) (sched : List Step) (b : Bridge)
    (msg : InboundMessage)
    (hb : (ReadBatch a ctx sched).bridge = some b)
    (hrecv : b.caller = .received ⟨some msg, none⟩)
    (hpay : msg.payloadAsBytes.isSome ∨ msg.payloadAsString.isSome) :
    ∃ part, (ReadBatch a ctx sched).outcome = .returned (some [part]) (some (ackFunc msg)) none ∧
      (∀ k, k ∈ part.metaKeys ↔
        k = "solace_destination_name" ∨
        (msg.applicationMessageID.isSome ∧ k = "solace_message_id") ∨
        (msg.applicationMessageType.isSome ∧ k = "solace_message_type") ∨
        (msg.correlationID.isSome ∧ k = "solace_correlation_id") ∨
        (msg.httpContentEncoding.isSome ∧ k = "solace_content_encoding") ∨
        (msg.httpContentType.isSome ∧ k = "solace_content_type") ∨
        (msg.senderID.isSome ∧ k = "solace_sender_id") ∨
        (msg.replicationGroupMessageID.isSome ∧ k = "solace_rgmi") ∨
        (msg.priority.isSome ∧ k = "solace_priority") ∨
        ∃ kv ∈ msg.properties, k = "solace_prop_" ++ kv.1) ∧
      (msg.applicationMessageID = none → msg.applicationMessageType = none →
        msg.correlationID = none → msg.httpContentEncoding = none →
        msg.httpContentType = none → msg.senderID = none →
        msg.replicationGroupMessageID = none → msg.priority = none →
        msg.properties = [] → part.metaKeys = ["solace_destination_name"]) := by
  rw [ReadBatch_of_bridge a ctx sched b hb, (afterSelect_received b _ hrecv).1]
  obtain ⟨data, hd⟩ := payloadPart_of_extractable msg hpay
  refine ⟨setMetadata (NewMessage data) msg, afterReceive_ok msg _ hd,
    metaKeys_setMetadata data msg, ?_⟩
  intro h1 h2 h3 h4 h5 h6 h7 h8 h9
  simp [setMetadata, h1, h2, h3, h4, h5, h6, h7, h8, h9, setStringHeader, NewMessage,
    Message.MetaSetMut, Message.metaKeys]
  decide

/-- C4 at `plainMessage`: the only metadata key is solace_destination_name. -/
theorem C4_metadata_keys_witness :
    ((ReadBatch (inputWith (some (readyReceiver plainMessage))) liveCtx deliverSchedule).bridge
        = some ((Bridge.start liveCtx (readyReceiver plainMessage)).exec deliverSchedule) ∧
      ((Bridge.start liveCtx (readyReceiver plainMessage)).exec deliverSchedule).caller
        = .received ⟨some plainMessage, none⟩ ∧
      (plainMessage.payloadAsBytes.isSome ∨ plainMessage.payloadAsString.isSome)) ∧
    ∃ part, (ReadBatch (inputWith (some (readyReceiver plainMessage))) liveCtx
        deliverSchedule).outcome = .returned (some [part]) (some (ackFunc plainMessage)) none ∧
      part.metaKeys = ["solace_destination_name"] :=
  ⟨⟨rfl, rfl, Or.inl rfl⟩,
    (C4_metadata_keys (inputWith (some (readyReceiver plainMessage))) liveCtx deliverSchedule
      _ plainMessage rfl rfl (Or.inl rfl)).elim
      fun part h => ⟨part, h.1, h.2.2 rfl rfl rfl rfl rfl rfl rfl rfl rfl⟩⟩

/-- C5: for a received message `msg`, `ReadBatch` returns a batch of exactly
one envelope whose payload is the byte payload of `msg` when that is
extractable, else the bytes of its string payload when that is extractable;
when neither is, it returns an error with no batch and no callback. -/
theorem C5_payload (a : solaceInput) (ctx : Context) (sched : List Step) (b : Bridge)
    (msg : InboundMessage)
    (hb : (ReadBatch a ctx sched).bridge = some b)
    (hrecv : b.caller = .received ⟨some msg, none⟩) :
    (∀ data, msg.payloadAsBytes = some data →
      ∃ part, (ReadBatch a ctx sched).outcome
          = .returned (some [part]) (some (ackFunc msg)) none ∧ part.raw = data) ∧
    (∀ str, msg.payloadAsBytes = none → msg.payloadAsString = some str →
      ∃ part, (ReadBatch a ctx sched).outcome
          = .returned (some [part]) (some (ackFunc msg)) none ∧ part.raw = stringBytes str) ∧
    (msg.payloadAsBytes = none → msg.payloadAsString = none →
      ∃ e, (ReadBatch a ctx sched).outcome = .returned none none (some e)) := by
  rw [ReadBatch_of_bridge a ctx sched b hb, (afterSelect_received b _ hrecv).1]
  refine ⟨fun data hd => ?_, fun str hn hs => ?_, fun hn hs => ?_⟩
  · exact ⟨_, afterReceive_ok msg (NewMessage data) (by rw [payloadPart_eq, hd]),
      raw_setMetadata _ _⟩
  · exact ⟨_, afterReceive_ok msg (NewMessage (stringBytes str))
      (by rw [payloadPart_eq, hn, hs]), raw_setMetadata _ _⟩
  · exact ⟨_, afterReceive_undecodable msg (by rw [payloadPart_eq, hn, hs])⟩

/-- C5 at `textMessage`: the payload is the bytes of its string form. -/
theorem C5_payload_witness :
    ((ReadBatch (inputWith (some (readyReceiver textMessage))) liveCtx deliverSchedule).bridge
        = some ((Bridge.start liveCtx (readyReceiver textMessage)).exec deliverSchedule) ∧
      ((Bridge.start liveCtx (readyReceiver textMessage)).exec deliverSchedule).caller
        = .received ⟨some textMessage, none⟩) ∧
    ∃ part, (ReadBatch (inputWith (some (readyReceiver textMessage))) liveCtx
        deliverSchedule).outcome = .returned (some [part]) (some (ackFunc textMessage)) none ∧
      part.raw = stringBytes "hi" :=
  ⟨⟨rfl, rfl⟩,
    (C5_payload (inputWith (some (readyReceiver textMessage))) liveCtx deliverSchedule
      _ textMessage rfl rfl).2.1 "hi" rfl rfl⟩

/-- C6: `ReadBatch` makes no `Ack` call, on any path.  When it returns a
callback, a message `msg` was received by this very call, and the callback,
whatever context and error value it is given, makes exactly one call, `Ack`
on `msg`, on the receiver of the adapter, and returns what that `Ack`
returned. -/
theorem C6_ack_only_by_callback (a : solaceInput) (ctx : Context) (sched : List Step) :
    (∀ msg, Call.Ack msg ∉ (ReadBatch a ctx sched).calls) ∧
    (∀ batch ack err, (ReadBatch a ctx sched).outcome = .returned batch (some ack) err →
      ∃ b msg, (ReadBatch a ctx sched).bridge = some b ∧
        b.caller = .received ⟨some msg, none⟩ ∧
        ∀ (a' : solaceInput) (r' : PersistentMessageReceiver) (ctx' : Context)
          (e : Option Error), a'.persistentReceiver = some r' →
          ack a' ctx' e = some (r'.Ack msg, [Call.Ack msg])) := by
  unfold ReadBatch
  split
  · simp
  · rename_i reader hreader
    split
    · simp
    · have hcalls : ∀ msg, Call.Ack msg ∉ ((Bridge.start ctx reader).exec sched).calls :=
        exec_invariant (fun s => ∀ msg, Call.Ack msg ∉ s.calls) step_no_ack _
          (by simp [Bridge.start]) sched
      generalize (Bridge.start ctx reader).exec sched = s at hcalls
      refine ⟨?_, ?_⟩
      · intro msg
        unfold afterSelect
        split <;> simp [hcalls]
      · intro batch ack err hout
        refine ⟨s, ?_⟩
        rw [afterSelect_bridge]
        unfold afterSelect at hout
        split at hout
        · simp at hout
        · rename_i rmsg hrmsg
          obtain ⟨message, rerr⟩ := rmsg
          cases rerr with
          | some e => simp [afterReceive] at hout
          | none =>
            cases message with
            | none => simp [afterReceive] at hout
            | some msg =>
              cases hp : payloadPart msg with
              | none => simp [afterReceive, hp] at hout
              | some part =>
                simp only [afterReceive, hp, ReadOutcome.returned.injEq,
                  Option.some.injEq] at hout
                obtain ⟨-, hack, -⟩ := hout
                subst hack
                refine ⟨msg, rfl, hrmsg, ?_⟩
                intro a' r' ctx' e hr'
                simp [ackFunc, hr']
        · simp at hout

/-- C6 at `plainMessage`: no `Ack` during the call, one `Ack` by the callback. -/
theorem C6_ack_only_by_callback_witness :
    (∀ msg, Call.Ack msg ∉
      (ReadBatch (inputWith (some (readyReceiver plainMessage))) liveCtx deliverSchedule).calls) ∧
    ∃ msg, ((Bridge.start liveCtx (readyReceiver plainMessage)).exec deliverSchedule).caller
        = .received ⟨some msg, none⟩ ∧
      ackFunc plainMessage (inputWith (some (readyReceiver plainMessage))) liveCtx
          (some "downstream failed")
        = some ((readyReceiver plainMessage).Ack msg, [Call.Ack msg]) :=
  ⟨(C6_ack_only_by_callback (inputWith (some (readyReceiver plainMessage))) liveCtx
      deliverSchedule).1,
    ((C6_ack_only_by_callback (inputWith (some (readyReceiver plainMessage))) liveCtx
      deliverSchedule).2 _ (ackFunc plainMessage) _ rfl).elim
      fun _ h => h.elim fun msg h =>
        ⟨msg, (Option.some.inj h.1) ▸ h.2.1,
          h.2.2 (inputWith (some (readyReceiver plainMessage))) _ liveCtx
            (some "downstream failed") rfl⟩⟩

/-- C7: on an adapter whose receiver exists and is running, `Close` calls
`IsRunning`, then `Terminate` with a grace period of 30 seconds, then runs
`Client.Disconnect`, whatever `Terminate` answers; what `Close` returns is what
`Client.Disconnect` returns.  With a session present that is the session's
`Disconnect` call, made after `Terminate`, and its result. -/
theorem C7_close_terminates_then_disconnects (i : solaceInput)
    (r : PersistentMessageReceiver)
    (hr : i.persistentReceiver = some r) (hrun : r.IsRunning = true) :
    i.Close.1 = i.client.Disconnect.1 ∧
    i.Close.2 = [Call.IsRunning, .Log "info" "Shutting down persistent message receiver",
        .Terminate (30 * Second)] ++ i.client.Disconnect.2 ∧
    (∀ ms, i.client.messagingService = some ms →
      i.Close.1 = ms.Disconnect ∧
      i.Close.2 = [Call.IsRunning, .Log "info" "Shutting down persistent message receiver",
        .Terminate (30 * Second), .Log "info" "disconnecting from solace broker",
        .ServiceDisconnect]) := by
  refine ⟨rfl, by simp [solaceInput.Close, hr, hrun], fun ms hms => ?_⟩
  simp [solaceInput.Close, hr, hrun, Client.Disconnect, hms]

/-- C7 at a receiver whose `Terminate` reports an error: the session is disconnected all the same. -/
theorem C7_close_terminates_then_disconnects_witness :
    (connectedInput.persistentReceiver = some faultyReceiver ∧
      faultyReceiver.IsRunning = true ∧
      faultyReceiver.Terminate (30 * Second) = some "terminate failed") ∧
    connectedInput.Close.1 = some "disconnect failed" ∧
    connectedInput.Close.2 = [Call.IsRunning,
      .Log "info" "Shutting down persistent message receiver",
      .Terminate (30 * Second), .Log "info" "disconnecting from solace broker",
      .ServiceDisconnect] :=
  ⟨⟨rfl, rfl, rfl⟩,
    (C7_close_terminates_then_disconnects connectedInput faultyReceiver rfl rfl).2.2
      sampleService rfl⟩

/-- C10 (as amended): `Connect` always returns.  When the session build, the
session connect or the receiver build fails, it returns that error and the
receiver field is what it was before.  When the receiver was built and its
`Start` fails, it returns that error and the receiver field holds the built
receiver. -/
theorem C10_connect_failure (i : solaceInput) (build : ServiceBuilder) :
    ∃ res, i.Connect build = some res ∧
      (∀ e, build i.client.properties = .error e →
        res.err = some e ∧ res.input.persistentReceiver = i.persistentReceiver) ∧
      (∀ ms e, build i.client.properties = .ok ms → ms.Connect = some e →
        res.err = some e ∧ res.input.persistentReceiver = i.persistentReceiver) ∧
      (∀ ms e, build i.client.properties = .ok ms → ms.Connect = none →
        ms.BuildReceiver i.endpointConfig.queueName = .error e →
        res.err = some e ∧ res.input.persistentReceiver = i.persistentReceiver) ∧
      (∀ ms r e, build i.client.properties = .ok ms → ms.Connect = none →
        ms.BuildReceiver i.endpointConfig.queueName = .ok r → r.Start = some e →
        res.err = some e ∧ res.input.persistentReceiver = some r) := by
  cases hb : build i.client.properties with
  | error e0 =>
    refine ⟨_, by simp [solaceInput.Connect, Client.Connect, hb]; rfl, ?_⟩
    refine ⟨fun e h => ?_, fun ms' e h1 h2 => ?_, fun ms' e h1 h2 h3 => ?_,
      fun ms' r' e h1 h2 h3 h4 => ?_⟩ <;> simp_all
  | ok ms =>
    cases hc : ms.Connect with
    | some e0 =>
      refine ⟨_, by simp [solaceInput.Connect, Client.Connect, hb, hc]; rfl, ?_⟩
      refine ⟨fun e h => ?_, fun ms' e h1 h2 => ?_, fun ms' e h1 h2 h3 => ?_,
        fun ms' r' e h1 h2 h3 h4 => ?_⟩ <;> simp_all
    | none =>
      cases hbr : ms.BuildReceiver i.endpointConfig.queueName with
      | error e0 =>
        refine ⟨_, by simp [solaceInput.Connect, Client.Connect, hb, hc,
          Client.getMessagingService, hbr]; rfl, ?_⟩
        refine ⟨fun e h => ?_, fun ms' e h1 h2 => ?_, fun ms' e h1 h2 h3 => ?_,
          fun ms' r' e h1 h2 h3 h4 => ?_⟩ <;> simp_all
      | ok r =>
        cases hs : r.Start with
        | some e0 =>
          refine ⟨_, by simp [solaceInput.Connect, Client.Connect, hb, hc,
            Client.getMessagingService, hbr, hs]; rfl, ?_⟩
          refine ⟨fun e h => ?_, fun ms' e h1 h2 => ?_, fun ms' e h1 h2 h3 => ?_,
            fun ms' r' e h1 h2 h3 h4 => ?_⟩ <;> simp_all
        | none =>
          refine ⟨_, by simp [solaceInput.Connect, Client.Connect, hb, hc,
            Client.getMessagingService, hbr, hs]; rfl, ?_⟩
          refine ⟨fun e h => ?_, fun ms' e h1 h2 => ?_, fun ms' e h1 h2 h3 => ?_,
            fun ms' r' e h1 h2 h3 h4 => ?_⟩ <;> simp_all

/-- C10 (as amended) at a receiver whose `Start` fails. -/
theorem C10_connect_failure_witness :
    ∃ res, (inputWith none).Connect (fun _ => .ok sampleService) = some res ∧
      res.err = some "start failed" ∧
      res.input.persistentReceiver = some faultyReceiver :=
  (C10_connect_failure (inputWith none) (fun _ => .ok sampleService)).elim
    fun res h => ⟨res, h.1, h.2.2.2.2 sampleService faultyReceiver "start failed" rfl rfl rfl rfl⟩

/-- C10 (counterexample): the adapter has no receiver; the session connects,
the receiver is built, its `Start` fails.  `Connect` returns the error of
`Start`, and the adapter now has a receiver. -/
theorem C10_counterexample_receiver_left :
    (inputWith none).persistentReceiver.isNone = true ∧
    ∃ res, (inputWith none).Connect (fun _ => .ok sampleService) = some res ∧
      res.err = some "start failed" ∧ res.input.persistentReceiver.isSome = true :=
  ⟨rfl, _, rfl, rfl, rfl⟩

/-! ## Lemmas on the property map and the logging loop -/

theorem get_set_same (m : ServicePropertyMap) (k : String) (v : Value) :
    (m.set k v).get k = some v := by
  induction m with
  | nil => simp [ServicePropertyMap.set, ServicePropertyMap.get]
  | cons e es ih =>
    by_cases hk : e.1 = k
    · simp [ServicePropertyMap.set, ServicePropertyMap.get, hk]
    · simp [ServicePropertyMap.set, ServicePropertyMap.get, hk, ih]

theorem get_set_other (m : ServicePropertyMap) (k k' : String) (v : Value) (h : k' ≠ k) :
    (m.set k v).get k' = m.get k' := by
  induction m with
  | nil => simp [ServicePropertyMap.set, ServicePropertyMap.get, h.symm]
  | cons e es ih =>
    simp only [ServicePropertyMap.set]
    by_cases hk : e.1 = k
    · have h2 : ¬ e.1 = k' := fun h' => h (h'.symm.trans hk)
      rw [if_pos hk]
      simp only [ServicePropertyMap.get]
      rw [if_neg (Ne.symm h), if_neg h2]
    · rw [if_neg hk]
      simp only [ServicePropertyMap.get]
      rw [ih]

/-- The value logged for a property is the redaction token when the property
is one of the obfuscated ones, else its own value. -/
theorem obfuscate_eq (config : ConfigConstants) (k : String) (v : Value) :
    obfuscate config k v
      = if k ∈ obfuscatedProperties config then .str obfuscated else v := by
  simp only [obfuscate, obfuscatedProperties, List.foldl, List.mem_cons, List.mem_singleton,
    List.not_mem_nil, or_false, beq_iff_eq]
  split_ifs <;> simp_all

theorem except_bind_ok {α β : Type} (x : Except Error α) (f : α → Except Error β) (b : β) :
    (x >>= f) = .ok b ↔ ∃ a, x = .ok a ∧ f a = .ok b := by
  cases x with
  | error e => simp [bind, Except.bind]
  | ok a => simp [bind, Except.bind]

/-- What a successful `initSharedConfig` returns: every field was read with its
type, the map is the thirteen writes in source order, and the calls are the
logging loop over the final map. -/
theorem initSharedConfig_chain (config : ConfigConstants) (c : Client) (conf : ParsedConfig)
    (client : Client) (calls : List Call)
    (h : Client.initSharedConfig config c conf = .ok (client, calls)) :
    ∃ (host : String) (keepAlive reconnect reconnectWait retries retriesPerHost : Int)
      (vpn : String) (senderID sendTimestamps receiveTimestamps : Bool)
      (scheme userName password : String),
      conf.FieldString ["transport", stripPropertyName config.TransportLayerPropertyHost]
        = .ok host ∧
      conf.FieldInt ["transport",
        stripPropertyName config.TransportLayerPropertyKeepAliveInterval] = .ok keepAlive ∧
      conf.FieldInt ["transport",
        stripPropertyName config.TransportLayerPropertyReconnectionAttempts] = .ok reconnect ∧
      conf.FieldInt ["transport",
        stripPropertyName config.TransportLayerPropertyReconnectionAttemptsWaitInterval]
          = .ok reconnectWait ∧
      conf.FieldInt ["transport",
        stripPropertyName config.TransportLayerPropertyConnectionRetries] = .ok retries ∧
      conf.FieldInt ["transport",
        stripPropertyName config.TransportLayerPropertyConnectionRetriesPerHost]
          = .ok retriesPerHost ∧
      conf.FieldString ["service", stripPropertyName config.ServicePropertyVPNName] = .ok vpn ∧
      conf.FieldBool ["service", stripPropertyName config.ServicePropertyGenerateSenderID]
        = .ok senderID ∧
      conf.FieldBool ["service", stripPropertyName config.ServicePropertyGenerateSendTimestamps]
        = .ok sendTimestamps ∧
      conf.FieldBool ["service",
        stripPropertyName config.ServicePropertyGenerateReceiveTimestamps]
          = .ok receiveTimestamps ∧
      conf.FieldString ["authentication", stripPropertyName config.AuthenticationPropertyScheme]
        = .ok scheme ∧
      conf.FieldString ["authentication", "basic",
        stripPropertyName config.AuthenticationPropertySchemeBasicUserName] = .ok userName ∧
      conf.FieldString ["authentication", "basic",
        stripPropertyName config.AuthenticationPropertySchemeBasicPassword] = .ok password ∧
      client.properties =
        (((((((((((((c.properties.set config.TransportLayerPropertyHost (.str host)).set
          config.TransportLayerPropertyKeepAliveInterval (.int keepAlive)).set
          config.TransportLayerPropertyReconnectionAttempts (.int reconnect)).set
          config.TransportLayerPropertyReconnectionAttemptsWaitInterval (.int reconnectWait)).set
          config.TransportLayerPropertyConnectionRetries (.int retries)).set
          config.TransportLayerPropertyConnectionRetriesPerHost (.int retriesPerHost)).set
          config.ServicePropertyVPNName (.str vpn)).set
          config.ServicePropertyGenerateSenderID (.bool senderID)).set
          config.ServicePropertyGenerateSendTimestamps (.bool sendTimestamps)).set
          config.ServicePropertyGenerateReceiveTimestamps (.bool receiveTimestamps)).set
          config.AuthenticationPropertyScheme (.str scheme)).set
          config.AuthenticationPropertySchemeBasicUserName (.str userName)).set
          config.AuthenticationPropertySchemeBasicPassword (.str password)) ∧
      calls = logProperties config client.properties := by
  simp only [Client.initSharedConfig, except_bind_ok] at h
  obtain ⟨v1, h1, v2, h2, v3, h3, v4, h4, v5, h5, v6, h6, v7, h7, v8, h8, v9, h9, v10, h10,
    v11, h11, v12, h12, v13, h13, h⟩ := h
  cases h
  exact ⟨v1, v2, v3, v4, v5, v6, v7, v8, v9, v10, v11, v12, v13, h1, h2, h3, h4, h5, h6, h7, h8,
    h9, h10, h11, h12, h13, rfl, rfl⟩

theorem get_set (m : ServicePropertyMap) (k k' : String) (v : Value) :
    (m.set k v).get k' = if k' = k then some v else m.get k' := by
  by_cases h : k' = k
  · rw [if_pos h, h, get_set_same]
  · rw [if_neg h, get_set_other m k k' v h]

/-- The only keys of the map built by `NewSharedSolaceClient` are the thirteen
identifiers that `initSharedConfig` writes, whatever the configuration. -/
theorem NewSharedSolaceClient_keys (config : ConfigConstants) (conf : ParsedConfig)
    (client : Client) (calls : List Call)
    (h : NewSharedSolaceClient config conf = .ok (client, calls)) (k : String)
    (hk : k ∉ [config.TransportLayerPropertyHost,
      config.TransportLayerPropertyKeepAliveInterval,
      config.TransportLayerPropertyReconnectionAttempts,
      config.TransportLayerPropertyReconnectionAttemptsWaitInterval,
      config.TransportLayerPropertyConnectionRetries,
      config.TransportLayerPropertyConnectionRetriesPerHost,
      config.ServicePropertyVPNName,
      config.ServicePropertyGenerateSenderID,
      config.ServicePropertyGenerateSendTimestamps,
      config.ServicePropertyGenerateReceiveTimestamps,
      config.AuthenticationPropertyScheme,
      config.AuthenticationPropertySchemeBasicUserName,
      config.AuthenticationPropertySchemeBasicPassword]) :
    client.properties.get k = none := by
  obtain ⟨_, _, _, _, _, _, _, _, _, _, _, _, _, -, -, -, -, -, -, -, -, -, -, -, -, -, hp, -⟩ :=
    initSharedConfig_chain config _ conf client calls h
  simp only [List.mem_cons, List.mem_singleton, List.not_mem_nil, or_false, not_or] at hk
  obtain ⟨k1, k2, k3, k4, k5, k6, k7, k8, k9, k10, k11, k12, k13⟩ := hk
  rw [hp]
  simp only [get_set, if_neg k1, if_neg k2, if_neg k3, if_neg k4, if_neg k5, if_neg k6,
    if_neg k7, if_neg k8, if_neg k9, if_neg k10, if_neg k11, if_neg k12, if_neg k13]
  rfl

/-- C8 (the code at the failing input): in `fullConfig` every field of the
schema is present and well typed, and `NewSharedSolaceClient` succeeds; the
property map it builds has the configured value for each transport, service,
scheme and basic field, and no entry at all for the three oauth2 fields and
the four client_certificate fields. -/
theorem C8_oauth2_and_client_certificate_not_mapped :
    (getDefaultConfigFields sdk).all (fun f => f.wellTyped fullConfig) = true ∧
    ∃ client calls, NewSharedSolaceClient sdk fullConfig = .ok (client, calls) ∧
      (getDefaultConfigFields sdk).map (fun f => (f.path, client.properties.get f.property))
        = [ (["transport", "host"], some (.str "tcp://localhost:55555")),
            (["transport", "keep_alive_interval"], some (.int 32000)),
            (["transport", "connection_retries"], some (.int 5)),
            (["transport", "connection_retries_per_host"], some (.int 3)),
            (["transport", "reconnection_attempts"], some (.int (-1))),
            (["transport", "reconnection_attempts_wait_interval"], some (.int 1000)),
            (["service", "vpn_name"], some (.str "default")),
            (["service", "generate_receive_timestamps"], some (.bool false)),
            (["service", "generate_sender_id"], some (.bool true)),
            (["service", "generate_send_timestamps"], some (.bool false)),
            (["authentication", "scheme"], some (.str "AUTHENTICATION_SCHEME_OAUTH2")),
            (["authentication", "basic", "user_name"], some (.str "admin")),
            (["authentication", "basic", "password"], some (.str "hunter2")),
            (["authentication", "oauth2", "access_token"], none),
            (["authentication", "oauth2", "issuer_identifier"], none),
            (["authentication", "oauth2", "oidc_id_token"], none),
            (["authentication", "client_certificate", "cert_file"], none),
            (["authentication", "client_certificate", "private_key_file"], none),
            (["authentication", "client_certificate", "private_key_password"], none),
            (["authentication", "client_certificate", "user_name"], none) ] := by
  refine ⟨by decide, _, _, rfl, ?_⟩
  decide

/-- An entry read from the map is an entry of the map. -/
theorem mem_of_get (m : ServicePropertyMap) (k : String) (v : Value)
    (h : m.get k = some v) : (k, v) ∈ m := by
  induction m with
  | nil => simp [ServicePropertyMap.get] at h
  | cons e es ih =>
    simp only [ServicePropertyMap.get] at h
    by_cases hk : e.1 = k
    · rw [if_pos hk] at h
      cases h
      rw [← hk]
      exact List.mem_cons_self _ _
    · rw [if_neg hk] at h
      exact List.mem_cons_of_mem _ (ih h)

/-- C9: when `NewSharedSolaceClient` succeeds, the lines it logs are one per
entry of the property map.  The line of an entry whose key is the basic
password, the OAuth2 access token, the OIDC ID token or the client-certificate
private-key password carries the token "*********" as value; the line of any
other entry carries the value the map holds.  The basic password is in the
map with the value that was configured, and its line, with "*********", is
among the lines logged. -/
theorem C9_secrets_logged_redacted (config : ConfigConstants) (conf : ParsedConfig)
    (client : Client) (calls : List Call)
    (h : NewSharedSolaceClient config conf = .ok (client, calls)) :
    calls = client.properties.map (fun e => Call.Log "debug"
      ("solace property " ++ e.1 ++ "=" ++
        if e.1 = config.AuthenticationPropertySchemeBasicPassword ∨
            e.1 = config.AuthenticationPropertySchemeOAuth2AccessToken ∨
            e.1 = config.AuthenticationPropertySchemeOAuth2OIDCIDToken ∨
            e.1 = config.AuthenticationPropertySchemeClientCertPrivateKeyFilePassword
          then "*********" else fmtV e.2)) ∧
    ∃ pw, conf ["authentication", "basic",
        stripPropertyName config.AuthenticationPropertySchemeBasicPassword] = some (.str pw) ∧
      client.properties.get config.AuthenticationPropertySchemeBasicPassword
        = some (.str pw) ∧
      Call.Log "debug" ("solace property " ++
        config.AuthenticationPropertySchemeBasicPassword ++ "=" ++ "*********") ∈ calls := by
  obtain ⟨_, _, _, _, _, _, _, _, _, _, _, _, pw, -, -, -, -, -, -, -, -, -, -, -, -, hpw, hp,
    hcalls⟩ := initSharedConfig_chain config _ conf client calls h
  have hlines : calls = client.properties.map (fun e => Call.Log "debug"
      ("solace property " ++ e.1 ++ "=" ++
        if e.1 = config.AuthenticationPropertySchemeBasicPassword ∨
            e.1 = config.AuthenticationPropertySchemeOAuth2AccessToken ∨
            e.1 = config.AuthenticationPropertySchemeOAuth2OIDCIDToken ∨
            e.1 = config.AuthenticationPropertySchemeClientCertPrivateKeyFilePassword
          then "*********" else fmtV e.2)) := by
    rw [hcalls, logProperties]
    apply List.map_congr_left
    intro e _
    rw [obfuscate_eq]
    simp only [obfuscatedProperties, List.mem_cons, List.mem_singleton, List.not_mem_nil,
      or_false]
    by_cases h1 : e.1 = config.AuthenticationPropertySchemeBasicPassword
    · simp only [h1, true_or, if_true]
      rfl
    · by_cases h2 : e.1 = config.AuthenticationPropertySchemeClientCertPrivateKeyFilePassword
      · simp only [h2, true_or, or_true, if_true]
        rfl
      · by_cases h3 : e.1 = config.AuthenticationPropertySchemeOAuth2AccessToken
        · simp only [h3, true_or, or_true, if_true]
          rfl
        · by_cases h4 : e.1 = config.AuthenticationPropertySchemeOAuth2OIDCIDToken
          · simp only [h4, true_or, or_true, if_true]
            rfl
          · simp only [h1, h2, h3, h4, or_self, if_false]
  have hget : client.properties.get config.AuthenticationPropertySchemeBasicPassword
      = some (.str pw) := by rw [hp, get_set_same]
  refine ⟨hlines, pw, ?_, hget, ?_⟩
  · unfold ParsedConfig.FieldString at hpw
    split at hpw
    · rename_i s hs
      cases hpw
      exact hs
    · cases hpw
    · cases hpw
  · rw [hlines]
    refine List.mem_map.2 ⟨_, mem_of_get _ _ _ hget, ?_⟩
    simp only [true_or, if_true]

/-- C9 at `fullConfig`: the basic password "hunter2" stays in the map, its line
is logged with "*********", and no line logged carries "hunter2". -/
theorem C9_secrets_logged_redacted_witness :
    ∃ client calls, NewSharedSolaceClient sdk fullConfig = .ok (client, calls) ∧
      (∃ pw, fullConfig ["authentication", "basic", "password"] = some (.str pw) ∧
        client.properties.get "solace.messaging.authentication.basic.password"
          = some (.str pw) ∧
        Call.Log "debug"
          "solace property solace.messaging.authentication.basic.password=*********" ∈ calls) ∧
      client.properties.get "solace.messaging.authentication.basic.password"
        = some (.str "hunter2") ∧
      Call.Log "debug"
        "solace property solace.messaging.authentication.basic.password=hunter2" ∉ calls :=
  ⟨_, _, rfl, (C9_secrets_logged_redacted sdk fullConfig _ _ rfl).2, by decide, by decide⟩

/-! ## The output adapter -/

/-- `Connect` on a fresh output whose session and publisher come up gives the
connected and started adapter `outputOn publishService`. -/
theorem connect_reaches_outputOn :
    ∃ calls, freshOutput.Connect (fun _ => .ok publishService)
      = some ⟨none, outputOn publishService, calls⟩ :=
  ⟨_, rfl⟩

/-- `Write` on a connected and started adapter, by the outcome of the message
build. -/
theorem write_eq (o : solaceOutput) (client : Client) (ms : MessagingService)
    (pub : PersistentMessagePublisher) (tmpl : InterpolatedString) (msg : Message)
    (hc : o.client = some client) (hms : client.messagingService = some ms)
    (hp : o.persistentPublisher = some pub) (ht : o.endpointConfig.topicName = some tmpl) :
    o.Write msg =
      match ms.BuildWithByteArrayPayload msg.raw with
      | .error err => some (some err, [.MessageBuilder, .BuildWithByteArrayPayload msg.raw])
      | .ok message =>
        some (pub.Publish message (TopicOf (tmpl.String msg)),
          [.MessageBuilder, .BuildWithByteArrayPayload msg.raw,
           .Publish message (TopicOf (tmpl.String msg))]) := by
  simp only [solaceOutput.Write, hc, Client.getMessagingService, hms, Message.AsBytes, hp, ht]

/-- C11 (as amended): on a connected and started output adapter, when the
broker message can be built from the bytes of the outgoing message, `Write`
makes exactly one `Publish` call, with that broker message and the topic that
the template evaluates to on the outgoing message, and returns what `Publish`
returned; when the build fails, `Write` returns that error and makes no
`Publish` call.  Two `Write` calls that publish, for messages on which the
template evaluates to different strings, publish to different topics. -/
theorem C11_write_publishes_once (o : solaceOutput) (client : Client) (ms : MessagingService)
    (pub : PersistentMessagePublisher) (tmpl : InterpolatedString) (msg : Message)
    (hc : o.client = some client) (hms : client.messagingService = some ms)
    (hp : o.persistentPublisher = some pub) (ht : o.endpointConfig.topicName = some tmpl) :
    (∀ message, ms.BuildWithByteArrayPayload msg.raw = .ok message →
      o.Write msg = some (pub.Publish message (TopicOf (tmpl.String msg)),
        [.MessageBuilder, .BuildWithByteArrayPayload msg.raw,
         .Publish message (TopicOf (tmpl.String msg))])) ∧
    (∀ err, ms.BuildWithByteArrayPayload msg.raw = .error err →
      o.Write msg = some (some err, [.MessageBuilder, .BuildWithByteArrayPayload msg.raw])) ∧
    (∀ (msg' : Message) (r r' : Option Error × List Call) (message message' : OutboundMessage)
      (topic topic' : Topic),
      o.Write msg = some r → o.Write msg' = some r' →
      Call.Publish message topic ∈ r.2 → Call.Publish message' topic' ∈ r'.2 →
      tmpl.String msg ≠ tmpl.String msg' → topic ≠ topic') := by
  have key : ∀ (m : Message) (r : Option Error × List Call) (message : OutboundMessage)
      (topic : Topic), o.Write m = some r → Call.Publish message topic ∈ r.2 →
      topic = TopicOf (tmpl.String m) := by
    intro m r message topic hw hmem
    rw [write_eq o client ms pub tmpl m hc hms hp ht] at hw
    cases hb : ms.BuildWithByteArrayPayload m.raw with
    | error err =>
      rw [hb] at hw
      cases hw
      simp at hmem
    | ok built =>
      rw [hb] at hw
      cases hw
      simp at hmem
      exact hmem.2
  refine ⟨fun message hb => ?_, fun err hb => ?_, ?_⟩
  · rw [write_eq o client ms pub tmpl msg hc hms hp ht, hb]
  · rw [write_eq o client ms pub tmpl msg hc hms hp ht, hb]
  · intro msg' r r' message message' topic topic' hw hw' hmem hmem' hne heq
    rw [key msg r message topic hw hmem, key msg' r' message' topic' hw' hmem'] at heq
    exact hne (congrArg Topic.name heq)

/-- C11 (as amended) at `outputOn publishService`: the message of kind "a" is
published once to "my/topic/a", and the messages of kinds "a" and "b" go to
different topics. -/
theorem C11_write_publishes_once_witness :
    ((outputOn publishService).client
        = some { messagingService := some publishService, properties := [] } ∧
      (outputOn publishService).persistentPublisher = some samplePublisher ∧
      (outputOn publishService).endpointConfig.topicName = some topicByKind ∧
      publishService.BuildWithByteArrayPayload (outgoing "a").raw = .ok ⟨[104, 105]⟩) ∧
    (outputOn publishService).Write (outgoing "a")
      = some (samplePublisher.Publish ⟨[104, 105]⟩ (TopicOf "my/topic/a"),
        [.MessageBuilder, .BuildWithByteArrayPayload [104, 105],
         .Publish ⟨[104, 105]⟩ (TopicOf "my/topic/a")]) :=
  ⟨⟨rfl, rfl, rfl, rfl⟩,
    (C11_write_publishes_once (outputOn publishService) _ publishService samplePublisher
      topicByKind (outgoing "a") rfl rfl rfl rfl).1 ⟨[104, 105]⟩ rfl⟩

/-- C11 (counterexample): the adapter is connected and its publisher started,
the session cannot build a broker message; `Write` returns the build error
and makes no `Publish` call. -/
theorem C11_counterexample_build_fails :
    (outputOn brokenBuilderService).client.isSome = true ∧
    (outputOn brokenBuilderService).persistentPublisher.isSome = true ∧
    (outputOn brokenBuilderService).Write (outgoing "a")
      = some (some "build failed", [.MessageBuilder, .BuildWithByteArrayPayload [104, 105]]) :=
  ⟨rfl, rfl, rfl⟩

/-! ## `stripPropertyName` -/

theorem isUpper_iff (c : Char) : c.isUpper = true ↔ (65 ≤ c.toNat ∧ c.toNat ≤ 90) := by
  simp only [Char.isUpper, Bool.and_eq_true, decide_eq_true_eq]
  exact Iff.rfl

/-- `Char.toLower` leaves a character that is not A-Z alone and moves A-Z by 32. -/
theorem toLower_cases (c : Char) :
    (c.isUpper = false ∧ c.toLower = c) ∨
    ∃ n, 65 ≤ n ∧ n ≤ 90 ∧ c = Char.ofNat n ∧ c.toLower = Char.ofNat (n + 32) := by
  by_cases h : c.toNat ≥ 65 ∧ c.toNat ≤ 90
  · right
    refine ⟨c.toNat, h.1, h.2, (Char.ofNat_toNat c).symm, ?_⟩
    simp [Char.toLower, h]
  · left
    refine ⟨?_, by simp [Char.toLower, h]⟩
    cases hu : c.isUpper with
    | false => rfl
    | true => exact absurd ((isUpper_iff c).1 hu) h

theorem lower_letter_facts (n : Nat) (h1 : 65 ≤ n) (h2 : n ≤ 90) :
    (Char.ofNat (n + 32)).toNat = n + 32 ∧
    (Char.ofNat (n + 32)).toLower = Char.ofNat (n + 32) := by
  interval_cases n <;> decide

/-- A valid code point is the code point of its character. -/
theorem toNat_ofNat_of_valid (t : Nat) (h : t < 55296 ∨ (57344 ≤ t ∧ t < 1114112)) :
    (Char.ofNat t).toNat = t := by
  have hv : t.isValidChar := by
    rcases h with h | ⟨h1, h2⟩
    · exact Or.inl h
    · exact Or.inr ⟨h1, h2⟩
  unfold Char.ofNat
  rw [dif_pos hv]
  simp [Char.ofNatAux, Char.toNat, UInt32.toNat]

set_option maxRecDepth 200000 in
set_option maxHeartbeats 2000000 in
/-- Every row of the lower-case table passes its check. -/
theorem lowerRanges_ok : lowerRanges.all rowOK = true := by decide

/-- A code point outside the lower-case table is left alone. -/
theorem toLowerCode_of_none (n : Nat)
    (h : lowerRanges.find? (fun row => row.1.covers n) = none) : toLowerCode n = n := by
  simp only [toLowerCode, h]

theorem covers_iff (r : CodeRange) (n : Nat) :
    r.covers n = true ↔ r.lo ≤ n ∧ n ≤ r.hi ∧ (r.alternate = true → (n - r.lo) % 2 = 0) := by
  simp only [CodeRange.covers, Bool.and_eq_true, Bool.or_eq_true, Bool.not_eq_true',
    Nat.ble_eq]
  constructor
  · rintro ⟨⟨h1, h2⟩, h3⟩
    refine ⟨h1, h2, fun ha => ?_⟩
    rcases h3 with h3 | h3
    · rw [ha] at h3; cases h3
    · exact Nat.eq_of_beq_eq_true h3
  · rintro ⟨h1, h2, h3⟩
    refine ⟨⟨h1, h2⟩, ?_⟩
    cases ha : r.alternate with
    | false => exact Or.inl rfl
    | true =>
      right
      rw [h3 ha]
      rfl

/-- A row that is separate from `other` has no image that `other` holds. -/
theorem not_covers_of_separate (row other : CodeRange × Nat) (n : Nat)
    (hsep : separate row other = true) (hcov : row.1.covers n = true) :
    other.1.covers (row.2 + (n - row.1.lo)) = false := by
  cases hc : other.1.covers (row.2 + (n - row.1.lo)) with
  | false => rfl
  | true =>
    exfalso
    obtain ⟨h1, h2, h3⟩ := (covers_iff _ _).1 hcov
    obtain ⟨g1, g2, g3⟩ := (covers_iff _ _).1 hc
    simp only [separate, Bool.or_eq_true, Bool.and_eq_true, Nat.blt_eq] at hsep
    rcases hsep with (hs | hs) | ⟨⟨ha, hr⟩, hp⟩
    · omega
    · omega
    · have g3' := g3 ha
      have hp' := Nat.eq_of_beq_eq_true hp
      rcases hr with hr | hr
      · have h3' := h3 hr
        omega
      · have hr' := Nat.eq_of_beq_eq_true hr
        omega

/-- The image of a code point under the lower-case table: the code point
itself, or a valid code point from 'a' on that the table leaves alone. -/
theorem toLowerCode_cases (n : Nat) :
    toLowerCode n = n ∨
    (97 ≤ toLowerCode n ∧
      (toLowerCode n < 55296 ∨ (57344 ≤ toLowerCode n ∧ toLowerCode n < 1114112)) ∧
      toLowerCode (toLowerCode n) = toLowerCode n) := by
  cases hf : lowerRanges.find? (fun row => row.1.covers n) with
  | none => exact Or.inl (toLowerCode_of_none n hf)
  | some row =>
    right
    have hcov : row.1.covers n = true := by
      have h := List.find?_some hf
      exact h
    have hmem : row ∈ lowerRanges := List.mem_of_find?_eq_some hf
    have hrow : rowOK row = true := (List.all_eq_true.1 lowerRanges_ok) row hmem
    have hval : toLowerCode n = row.2 + (n - row.1.lo) := by simp only [toLowerCode, hf]
    obtain ⟨h1, h2, -⟩ := (covers_iff _ _).1 hcov
    simp only [rowOK, Bool.and_eq_true, Bool.or_eq_true, Nat.blt_eq, Nat.ble_eq,
      List.all_eq_true] at hrow
    obtain ⟨⟨h97, hvalid⟩, hsep⟩ := hrow
    rw [hval]
    refine ⟨by omega, ?_, ?_⟩
    · rcases hvalid with h | ⟨ha, hb⟩
      · exact Or.inl (by omega)
      · exact Or.inr ⟨by omega, by omega⟩
    · apply toLowerCode_of_none
      rw [List.find?_eq_none]
      intro other hother
      rw [not_covers_of_separate row other n (hsep other hother) hcov]
      simp

/-- Go's `unicode.ToLower` either leaves a character that is not A-Z alone, or
gives a character from 'a' on that it leaves alone. -/
theorem unicodeToLower_cases (c : Char) :
    (unicodeToLower c = c ∧ c.isUpper = false) ∨
    (97 ≤ (unicodeToLower c).toNat ∧ unicodeToLower (unicodeToLower c) = unicodeToLower c) := by
  by_cases hascii : c.toNat < 128
  · rcases toLower_cases c with ⟨hu, he⟩ | ⟨n, h1, h2, -, he⟩
    · left
      exact ⟨by simp only [unicodeToLower, if_pos hascii, he], hu⟩
    · right
      obtain ⟨hn, hl⟩ := lower_letter_facts n h1 h2
      have hc : unicodeToLower c = Char.ofNat (n + 32) := by
        simp only [unicodeToLower, if_pos hascii, he]
      rw [hc]
      refine ⟨by omega, ?_⟩
      have : (Char.ofNat (n + 32)).toNat < 128 := by omega
      simp only [unicodeToLower, if_pos this, hl]
  · have hc : unicodeToLower c = Char.ofNat (toLowerCode c.toNat) := by
      simp only [unicodeToLower, if_neg hascii]
    rcases toLowerCode_cases c.toNat with h | ⟨h97, hvalid, hfix⟩
    · left
      refine ⟨by rw [hc, h, Char.ofNat_toNat], ?_⟩
      cases hu : c.isUpper with
      | false => rfl
      | true =>
        have := (isUpper_iff c).1 hu
        omega
    · right
      have ht := toNat_ofNat_of_valid _ hvalid
      rw [hc, ht]
      refine ⟨h97, ?_⟩
      by_cases hlt : toLowerCode c.toNat < 128
      · rcases toLower_cases (Char.ofNat (toLowerCode c.toNat)) with ⟨-, he⟩ | ⟨m, h1, h2, hm, -⟩
        · simp only [unicodeToLower, ht, if_pos hlt, he]
        · have hm' := congrArg Char.toNat hm
          rw [ht, toNat_ofNat_of_valid m (Or.inl (by omega))] at hm'
          omega
      · simp only [unicodeToLower, ht, if_neg hlt, hfix]

theorem unicodeToLower_idem (c : Char) :
    unicodeToLower (unicodeToLower c) = unicodeToLower c := by
  rcases unicodeToLower_cases c with ⟨h, -⟩ | ⟨-, h⟩
  · rw [h, h]
  · exact h

theorem unicodeToLower_not_upper (c : Char) : (unicodeToLower c).isUpper = false := by
  rcases unicodeToLower_cases c with ⟨h, hu⟩ | ⟨h, -⟩
  · rw [h]; exact hu
  · cases hu : (unicodeToLower c).isUpper with
    | false => rfl
    | true =>
      have := (isUpper_iff _).1 hu
      omega

theorem unicodeToLower_eq_dot (c : Char) (h : unicodeToLower c = '.') : c = '.' := by
  rcases unicodeToLower_cases c with ⟨he, -⟩ | ⟨h97, -⟩
  · rw [← he]; exact h
  · rw [h] at h97
    exact absurd h97 (by decide)

theorem unicodeToLower_eq_dash (c : Char) (h : unicodeToLower c = '-') : c = '-' := by
  rcases unicodeToLower_cases c with ⟨he, -⟩ | ⟨h97, -⟩
  · rw [← he]; exact h
  · rw [h] at h97
    exact absurd h97 (by decide)

theorem lastIndexFrom_append (s : List Char) (c : Char) (i : Nat) (last : Int) :
    lastIndexFrom (s ++ [c]) i last
      = if c = '.' then ((i + s.length : Nat) : Int) else lastIndexFrom s i last := by
  induction s generalizing i last with
  | nil => simp [lastIndexFrom]
  | cons x xs ih =>
    show lastIndexFrom (x :: (xs ++ [c])) i last = _
    rw [lastIndexFrom, ih]
    by_cases h : c = '.'
    · rw [if_pos h, if_pos h, List.length_cons]
      congr 1
      omega
    · rw [if_neg h, if_neg h, lastIndexFrom]

theorem LastIndex_append (s : List Char) (c : Char) :
    LastIndex (s ++ [c]) = if c = '.' then (s.length : Int) else LastIndex s := by
  simp [LastIndex, lastIndexFrom_append]

theorem afterLastDot_append (s : List Char) (c : Char) :
    afterLastDot (s ++ [c]) = if c = '.' then [] else afterLastDot s ++ [c] := by
  by_cases h : c = '.'
  · simp [afterLastDot, h, List.takeWhile]
  · simp [afterLastDot, h, List.takeWhile]

/-- The slice `prop[strings.LastIndex(prop, ".")+1:]` is within bounds and is
the part after the last '.'. -/
theorem drop_LastIndex (s : List Char) :
    (-1 ≤ LastIndex s ∧ LastIndex s < s.length) ∧
    s.drop (LastIndex s + 1).toNat = afterLastDot s := by
  induction s using List.reverseRecOn with
  | nil => simp [LastIndex, lastIndexFrom, afterLastDot]
  | append_singleton s c ih =>
    obtain ⟨⟨hlo, hhi⟩, hd⟩ := ih
    rw [LastIndex_append, afterLastDot_append]
    by_cases h : c = '.'
    · simp only [if_pos h, List.length_append, List.length_singleton]
      refine ⟨⟨by omega, by omega⟩, ?_⟩
      have : ((s.length : Int) + 1).toNat = s.length + 1 := by omega
      rw [this]
      simp
    · simp only [if_neg h, List.length_append, List.length_singleton]
      refine ⟨⟨hlo, by push_cast; omega⟩, ?_⟩
      rw [List.drop_append_of_le_length (by omega), hd]

theorem not_dot_mem_afterLastDot (s : List Char) : '.' ∉ afterLastDot s := by
  intro h
  have := List.mem_takeWhile_imp (List.mem_reverse.1 h)
  simp at this

theorem afterLastDot_of_no_dot (s : List Char) (h : '.' ∉ s) : afterLastDot s = s := by
  unfold afterLastDot
  rw [List.takeWhile_eq_self_iff.2, List.reverse_reverse]
  intro x hx
  have : x ≠ '.' := fun he => h (he ▸ List.mem_reverse.1 hx)
  simpa using this

theorem stripPropertyName_eq_spec (p : String) :
    stripPropertyName p = stripPropertyNameSpec p := by
  simp only [stripPropertyName, stripPropertyNameSpec, (drop_LastIndex p.data).2, ReplaceAll]

theorem mem_stripPropertyName (p : String) (c : Char) (h : c ∈ (stripPropertyName p).data) :
    ∃ x ∈ afterLastDot p.data, c = unicodeToLower (if x = '-' then '_' else x) := by
  rw [stripPropertyName_eq_spec] at h
  simp only [stripPropertyNameSpec, ToLower, List.map_map, List.mem_map,
    Function.comp_apply] at h
  obtain ⟨x, hx, rfl⟩ := h
  exact ⟨x, hx, rfl⟩

/-- C12 (as amended): for every string `p`, the slice that `stripPropertyName`
takes is within bounds (for a `p` with no '.' the index is -1 and the slice is
all of `p`), and `stripPropertyName p` is the part of `p` after its last '.',
with every '-' replaced by '_', then lower-cased.  The result holds no '.', no
'-', no letter A-Z and no character that lower-casing changes, and
`stripPropertyName` leaves it unchanged. -/
theorem C12_stripPropertyName (p : String) :
    (0 ≤ LastIndex p.data + 1 ∧ LastIndex p.data + 1 ≤ p.data.length) ∧
    ('.' ∉ p.data → LastIndex p.data = -1) ∧
    stripPropertyName p = stripPropertyNameSpec p ∧
    '.' ∉ (stripPropertyName p).data ∧
    '-' ∉ (stripPropertyName p).data ∧
    (∀ c ∈ (stripPropertyName p).data, c.isUpper = false) ∧
    (∀ c ∈ (stripPropertyName p).data, unicodeToLower c = c) ∧
    stripPropertyName (stripPropertyName p) = stripPropertyName p := by
  have hdot : ∀ q : String, '.' ∉ (stripPropertyName q).data := by
    intro q h
    obtain ⟨x, hx, he⟩ := mem_stripPropertyName q _ h
    have hx' := unicodeToLower_eq_dot _ he.symm
    by_cases hd : x = '-'
    · rw [if_pos hd] at hx'
      exact absurd hx' (by decide)
    · rw [if_neg hd] at hx'
      exact not_dot_mem_afterLastDot _ (hx' ▸ hx)
  have hdash : ∀ q : String, '-' ∉ (stripPropertyName q).data := by
    intro q h
    obtain ⟨x, -, he⟩ := mem_stripPropertyName q _ h
    have hx' := unicodeToLower_eq_dash _ he.symm
    by_cases hd : x = '-'
    · rw [if_pos hd] at hx'
      exact absurd hx' (by decide)
    · rw [if_neg hd] at hx'
      exact hd hx'
  have hup : ∀ q : String, ∀ c ∈ (stripPropertyName q).data, c.isUpper = false := by
    intro q c h
    obtain ⟨x, -, rfl⟩ := mem_stripPropertyName q _ h
    exact unicodeToLower_not_upper _
  have hfix : ∀ q : String, ∀ c ∈ (stripPropertyName q).data, unicodeToLower c = c := by
    intro q c h
    obtain ⟨x, -, rfl⟩ := mem_stripPropertyName q _ h
    exact unicodeToLower_idem _
  have hb := (drop_LastIndex p.data).1
  refine ⟨⟨by omega, by omega⟩, ?_, stripPropertyName_eq_spec p, hdot p, hdash p, hup p,
    hfix p, ?_⟩
  · intro h
    have h1 := (drop_LastIndex p.data).2
    rw [afterLastDot_of_no_dot _ h] at h1
    have hlen := congrArg List.length h1
    rw [List.length_drop] at hlen
    omega
  · rw [stripPropertyName_eq_spec (stripPropertyName p)]
    unfold stripPropertyNameSpec
    rw [afterLastDot_of_no_dot _ (hdot p)]
    have h1 : (stripPropertyName p).data.map (fun c => if c = '-' then '_' else c)
        = (stripPropertyName p).data := by
      conv_rhs => rw [← List.map_id (stripPropertyName p).data]
      apply List.map_congr_left
      intro c hc
      have : c ≠ '-' := fun he => hdash p (he ▸ hc)
      simp [this]
    rw [h1]
    have h2 : ToLower (stripPropertyName p).data = (stripPropertyName p).data := by
      unfold ToLower
      conv_rhs => rw [← List.map_id (stripPropertyName p).data]
      apply List.map_congr_left
      intro c hc
      simpa using hfix p c hc
    rw [h2]

/-- C12 (as amended) at the empty string, at an identifier with no '.', at an
identifier with dots, dashes and capitals, and at one with letters outside
ASCII. -/
theorem C12_stripPropertyName_witness :
    stripPropertyName "" = "" ∧
    ('.' ∉ "Keep-Alive".data ∧ LastIndex "Keep-Alive".data = -1) ∧
    stripPropertyName "Keep-Alive" = "keep_alive" ∧
    stripPropertyName "solace.messaging.transport.Keep-Alive-Interval" = "keep_alive_interval" ∧
    stripPropertyName "solace.Ünï-CÖDE" = "ünï_cöde" ∧
    stripPropertyName (stripPropertyName "solace.Ünï-CÖDE") = stripPropertyName "solace.Ünï-CÖDE" :=
  ⟨by decide, ⟨by decide, (C12_stripPropertyName "Keep-Alive").2.1 (by decide)⟩, by decide,
    by decide, by decide, (C12_stripPropertyName "solace.Ünï-CÖDE").2.2.2.2.2.2.2⟩

/-- C12 (counterexample): 'ℝ' (U+211D) is an upper-case letter with no
lower-case form; lower-casing leaves it, so the result of `stripPropertyName`
holds an upper-case letter. -/
theorem C12_counterexample_upper_case_kept :
    stripPropertyName "solace.messaging.ℝ" = "ℝ" ∧
    'ℝ' ∈ (stripPropertyName "solace.messaging.ℝ").data ∧
    IsUpper 'ℝ' = true := by
  decide

end solace
